import Mathlib

/-!
# onos-rsm: command encoding, request validation and per-node dispatch

A shallow embedding of

* `pkg/southbound/e2/control_message.go` (the command encoder),
* `pkg/northbound/rsm.go` (the API handlers),
* `pkg/nib/rnib/rnib.go` (the topology client),

followed by theorems about them.

Conventions of the embedding.

* Go `int` is 64 bits wide.  Integers are Lean `Int`; the conversions
  `int64(..)` and `int32(..)` are the explicit wrap-around functions `int64`
  and `int32` below.
* A Go pointer that the code leaves or may leave `nil` is an `Option`.
* A Go pair `(value, error)` whose two components are both inspected by a
  claim is a Lean pair whose second component is `Option Error`.
* The protobuf enums are open `int32` types.  Each is an inductive type with
  one constructor per named constant and a constructor `unrecognized v` that
  stands for a wire value different from every named constant.
* Functions of external libraries (`pdubuilder`, `proto.Marshal`,
  `strconv.Quote`, the enum `String` method) are the fields of `Lib`, and
  those the topology client calls (`GetAspect`, `proto.Unmarshal`) the fields
  of `TopoLib`; the general theorems hold for every `Lib` and `TopoLib`, and
  `sampleLib` and `sampleTopo` are used where a concrete run is evaluated.
* A Go map that the code ranges over is the list of its entries in visiting
  order.
* Calls to the logger are not modelled.
-/

set_option linter.dupNamespace false

namespace OnosRsm

deriving instance DecidableEq for Except

/-! ## Bytes, integers -/

/-- A Go `[]byte`; the `nil` slice and the empty slice are both `[]`. -/
abbrev Bytes := List Nat

/-- Go `int64(n)`: two's-complement wrap-around to 64 bits. -/
def int64 (n : Int) : Int := (n + 2 ^ 63) % 2 ^ 64 - 2 ^ 63

/-- Go `int32(n)`: two's-complement wrap-around to 32 bits. -/
def int32 (n : Int) : Int := (n + 2 ^ 31) % 2 ^ 32 - 2 ^ 31

/-! ## Enumerations of `e2sm_rsm` and `rsmapi` -/

/-- The `e2sm_rsm.E2SmRsmCommand` enum. -/
inductive E2SmRsmCommand where
  | SLICE_CREATE
  | SLICE_UPDATE
  | SLICE_DELETE
  | UE_ASSOCIATE
  | EVENT_TRIGGERS
  | unrecognized (v : Int)
  deriving DecidableEq, Repr

namespace E2sm

/-- The `e2sm_rsm.SchedulerType` enum. -/
inductive SchedulerType where
  | ROUND_ROBIN
  | PROPORTIONALLY_FAIR
  | QOS_BASED
  | unrecognized (v : Int)
  deriving DecidableEq, Repr

/-- The `e2sm_rsm.SliceType` enum. -/
inductive SliceType where
  | DL_SLICE
  | UL_SLICE
  | unrecognized (v : Int)
  deriving DecidableEq, Repr

end E2sm

namespace Rsmapi

/-- The `rsmapi.SchedulerType` enum of the northbound API. -/
inductive SchedulerType where
  | ROUND_ROBIN
  | PROPORTIONALLY_FAIR
  | QOS_BASED
  | unrecognized (v : Int)
  deriving DecidableEq, Repr

/-- The `rsmapi.SliceType` enum of the northbound API. -/
inductive SliceType where
  | DL_SLICE
  | UL_SLICE
  | unrecognized (v : Int)
  deriving DecidableEq, Repr

/-- The `rsmapi.UeIdType` enum of the northbound API. -/
inductive UeIdType where
  | CU_UE_F1_AP_ID
  | DU_UE_F1_AP_ID
  | RAN_UE_NGAP_ID
  | AMF_UE_NGAP_ID
  | ENB_UE_S1_AP_ID
  | unrecognized (v : Int)
  deriving DecidableEq, Repr

end Rsmapi

/-! ## Messages of `e2sm_rsm` -/

/-- The message `e2sm_rsm.SliceId`. -/
structure SliceId where
  Value : Int
  deriving DecidableEq, Repr

/-- The message `e2sm_rsm.SliceParameters`; `Weight` is a `*int32`. Fields the
repository never sets are left out. -/
structure SliceParameters where
  SchedulerType : E2sm.SchedulerType
  Weight : Option Int
  deriving DecidableEq, Repr

/-- The message `e2sm_rsm.SliceConfig`. -/
structure SliceConfig where
  SliceId : Option SliceId
  SliceConfigParameters : Option SliceParameters
  SliceType : E2sm.SliceType
  deriving DecidableEq, Repr

/-- The nil-safe getter chain `sliceConfig.GetSliceId().GetValue()`. -/
def SliceConfig.GetSliceIdValue : Option SliceConfig → Int
  | some { SliceId := some id, .. } => id.Value
  | _ => 0

/-- The nil-safe getter `sliceConfig.GetSliceType()`. -/
def SliceConfig.GetSliceType : Option SliceConfig → E2sm.SliceType
  | some c => c.SliceType
  | none => E2sm.SliceType.DL_SLICE

/-- The message `e2sm_rsm.SliceIdassoc`. -/
structure SliceIdassoc where
  Value : Int
  deriving DecidableEq, Repr

/-- The message `e2sm_rsm.DuUeF1ApId`. -/
structure DuUeF1ApId where
  Value : Int
  deriving DecidableEq, Repr

/-- The message `e2sm_rsm.UeIdentity`; of its alternatives the repository builds
only `UeIdentity_DuUeF1ApId`. -/
inductive UeIdentity where
  | DuUeF1ApId (v : DuUeF1ApId)
  deriving DecidableEq, Repr

/-- The message `e2sm_v2_ies.Qci`. -/
structure Qci where
  Value : Int
  deriving DecidableEq, Repr

/-- The message `e2sm_rsm.FourGDrbId`. -/
structure FourGDrbId where
  Value : Int
  Qci : Option Qci
  deriving DecidableEq, Repr

/-- The message `e2sm_rsm.DrbId`; of its alternatives the repository builds only
`DrbId_FourGdrbId`. -/
inductive DrbId where
  | FourGdrbId (v : FourGDrbId)
  deriving DecidableEq, Repr

/-- The message `e2sm_rsm.BearerId`; of its alternatives the repository builds
only `BearerId_DrbId`. -/
inductive BearerId where
  | DrbId (v : DrbId)
  deriving DecidableEq, Repr

/-- The message `e2sm_rsm.SliceAssociate`. -/
structure SliceAssociate where
  DownLinkSliceId : Option SliceIdassoc
  UplinkSliceId : Option SliceIdassoc
  UeId : Option UeIdentity
  BearerId : List BearerId
  deriving DecidableEq, Repr

/-- The message `e2api.ControlMessage`. -/
structure ControlMessage where
  Header : Bytes
  Payload : Bytes
  deriving DecidableEq, Repr

/-! ## Errors -/

/-- The two sentinel errors of `strconv`. -/
inductive NumErrKind where
  | ErrSyntax
  | ErrRange
  deriving DecidableEq, Repr

/-- A `*strconv.NumError`. -/
structure NumError where
  Func : String
  Num : String
  Err : NumErrKind
  deriving DecidableEq, Repr

/-- Go `error` values met in the repository. -/
inductive Error where
  | numError (e : NumError)
  | marshal (text : String)
  | errorf (msg : String) (cmdType : E2SmRsmCommand)
  | topo (text : String)
  | notFound (text : String)
  deriving DecidableEq, Repr

/-! ## External libraries -/

/-- The functions of external libraries the repository calls. -/
structure Lib where
  /-- The type `*e2sm_rsm.E2SmRsmControlHeader`. -/
  Header : Type
  /-- The type `*e2sm_rsm.E2SmRsmControlMessage`. -/
  Message : Type
  CreateE2SmRsmControlHeader : E2SmRsmCommand → Header
  CreateE2SmRsmControlMessageSliceCreate : Option SliceConfig → Message
  CreateE2SmRsmControlMessageSliceUpdate : Option SliceConfig → Message
  CreateE2SmRsmControlMessageSliceDelete : Int → E2sm.SliceType → Message
  CreateE2SmRsmControlMessageSliceAssociate : Option SliceAssociate → Message
  /-- The function `proto.Marshal` on a control header. -/
  MarshalHeader : Header → Except Error Bytes
  /-- The function `proto.Marshal` on a control message. -/
  MarshalMessage : Message → Except Error Bytes
  /-- The function `strconv.Quote`. -/
  Quote : String → String
  /-- The method `String` of `E2SmRsmCommand`. -/
  CommandString : E2SmRsmCommand → String

/-- The text of a `strconv` sentinel error. -/
def NumErrKind.text : NumErrKind → String
  | ErrSyntax => "invalid syntax"
  | ErrRange => "value out of range"

/-- The text the method `Error()` of an error value returns, which `%v` prints. -/
def Error.text (L : Lib) : Error → String
  | numError e => "strconv." ++ e.Func ++ ": parsing " ++ L.Quote e.Num ++ ": " ++ e.Err.text
  | marshal text => text
  | errorf msg cmdType => msg ++ " (" ++ L.CommandString cmdType ++ ")"
  | topo text => text
  | notFound text => text

/-! ## `strconv.Atoi` -/

/-- The digit loop of `strconv.ParseUint(s, 10, 64)`: `n` is the value read so
far; a byte that is not a decimal digit is a syntax error, a value that leaves
64 bits a range error, whichever the scan meets first. -/
def parseUintLoop : List Char → Nat → Except NumErrKind Nat
  | [], n => .ok n
  | c :: cs, n =>
    if ¬ ('0' ≤ c ∧ c ≤ '9') then .error .ErrSyntax
    else if n ≥ (2 ^ 64 - 1) / 10 + 1 then .error .ErrRange
    else
      let n1 := n * 10 + (c.toNat - '0'.toNat)
      if n1 > 2 ^ 64 - 1 then .error .ErrRange
      else parseUintLoop cs n1

/-- The function `strconv.ParseInt(s, 10, 64)` on the text after the sign has
been split off: `neg` tells whether the sign was `-`. -/
def parseSigned (neg : Bool) (digits : List Char) : Except NumErrKind Int :=
  if digits = [] then .error .ErrSyntax
  else
    match parseUintLoop digits 0 with
    | .error .ErrSyntax => .error .ErrSyntax
    | .error .ErrRange => .error .ErrRange
    | .ok un =>
      if ¬ neg ∧ un ≥ 2 ^ 63 then .error .ErrRange
      else if neg ∧ un > 2 ^ 63 then .error .ErrRange
      else .ok (if neg then - (un : Int) else (un : Int))

/-- The sign test at the head of `strconv.ParseInt`: whether the text starts
with `-`, and the text after a leading `+` or `-`. -/
def splitSign : List Char → Bool × List Char
  | '+' :: cs => (false, cs)
  | '-' :: cs => (true, cs)
  | cs => (false, cs)

/-- The function `strconv.Atoi` for a 64-bit `int`: an optional sign, then one
or more decimal digits, the value within the range of `int`.  (The fast path
of `Atoi` for short texts computes the same results as `ParseInt`.) -/
def Atoi (s : String) : Except NumError Int :=
  match parseSigned (splitSign s.data).1 (splitSign s.data).2 with
  | .ok n => .ok n
  | .error k => .error { Func := "Atoi", Num := s, Err := k }

/-! ## Base-10 integers, in the words of the specification -/

/-- A text of one or more decimal digits. -/
def isDecimalDigits (cs : List Char) : Bool :=
  !cs.isEmpty && cs.all fun c => decide ('0' ≤ c ∧ c ≤ '9')

/-- A valid base-10 integer: an optional sign, then one or more decimal
digits. -/
def isBase10Integer (s : String) : Bool :=
  isDecimalDigits (splitSign s.data).2

/-- The number that a text of decimal digits denotes. -/
def decimalValue (cs : List Char) : Nat :=
  cs.foldl (fun n c => n * 10 + (c.toNat - '0'.toNat)) 0

/-- The integer that a base-10 integer text denotes. -/
def denotedInteger (s : String) : Int :=
  if (splitSign s.data).1 then - (decimalValue (splitSign s.data).2 : Int)
  else (decimalValue (splitSign s.data).2 : Int)

/-! ## The command encoder: `pkg/southbound/e2/control_message.go` -/

/-- The method `ControlMessageHandler.CreateControlHandler`. -/
def CreateControlHandler (L : Lib) (cmdType : E2SmRsmCommand) : Bytes × Option Error :=
  let hdr := L.CreateE2SmRsmControlHeader cmdType
  match L.MarshalHeader hdr with
  | .error err => ([], some err)
  | .ok hdrProtoBytes => (hdrProtoBytes, none)

/-- The method `ControlMessageHandler.CreateControlPayload`.  The variables
`err` and `msgProtoBytes` start at their zero values.  In the last two cases
the statement `err := fmt.Errorf(..)` declares a variable of the case block, so
the `err` of the function, which the final `return` reads, is not assigned. -/
def CreateControlPayload (L : Lib) (cmdType : E2SmRsmCommand)
    (sliceConfig : Option SliceConfig) (sliceAssoc : Option SliceAssociate) :
    Bytes × Option Error :=
  let err : Option Error := none
  let msgProtoBytes : Bytes := []
  match cmdType with
  | .SLICE_CREATE =>
    let msg := L.CreateE2SmRsmControlMessageSliceCreate sliceConfig
    match L.MarshalMessage msg with
    | .error err => ([], some err)
    | .ok msgProtoBytes => (msgProtoBytes, none)
  | .SLICE_UPDATE =>
    let msg := L.CreateE2SmRsmControlMessageSliceUpdate sliceConfig
    match L.MarshalMessage msg with
    | .error err => ([], some err)
    | .ok msgProtoBytes => (msgProtoBytes, none)
  | .SLICE_DELETE =>
    let msg := L.CreateE2SmRsmControlMessageSliceDelete
      (SliceConfig.GetSliceIdValue sliceConfig) (SliceConfig.GetSliceType sliceConfig)
    match L.MarshalMessage msg with
    | .error err => ([], some err)
    | .ok msgProtoBytes => (msgProtoBytes, none)
  | .UE_ASSOCIATE =>
    let msg := L.CreateE2SmRsmControlMessageSliceAssociate sliceAssoc
    match L.MarshalMessage msg with
    | .error err => ([], some err)
    | .ok msgProtoBytes => (msgProtoBytes, none)
  | .EVENT_TRIGGERS =>
    let _err : Error := .errorf "Unsupported message type" cmdType
    (msgProtoBytes, err)
  | _ =>
    let _err : Error := .errorf "wrong E2SmRsmCommand type" cmdType
    (msgProtoBytes, err)

/-- The method `ControlMessageHandler.CreateControlRequest`.  The error that
`CreateControlPayload` returns is stored in `err` and not read again. -/
def CreateControlRequest (L : Lib) (cmdType : E2SmRsmCommand)
    (sliceConfig : Option SliceConfig) (sliceAssoc : Option SliceAssociate) :
    Option ControlMessage × Option Error :=
  match CreateControlHandler L cmdType with
  | (_, some err) => (none, some err)
  | (hdr, none) =>
    match CreateControlPayload L cmdType sliceConfig sliceAssoc with
    | (payload, _err) => (some { Header := hdr, Payload := payload }, none)

/-! ## The node-channel registry -/

/-- A Go `chan *e2api.ControlMessage`: `queue` holds the messages the channel
has accepted, oldest first; `room` is the number of sends that can complete now
(free buffer slots, or receivers that are waiting). -/
structure Chan where
  queue : List (Option ControlMessage)
  room : Nat
  deriving DecidableEq, Repr

/-- The map `ctrlReqChs map[string]chan *e2api.ControlMessage`, as an
association list; a key that is absent reads as the `nil` channel. -/
abbrev Registry := List (String × Chan)

/-- The map read `ctrlReqChs[id]`. -/
def Registry.get (m : Registry) (id : String) : Option Chan := List.lookup id m

/-- Replaces the channel state stored under `id`. -/
def Registry.set : Registry → String → Chan → Registry
  | [], _, _ => []
  | (k, c) :: rest, id, ch =>
    if k = id then (k, ch) :: rest else (k, c) :: Registry.set rest id ch

/-- What a send statement does. -/
inductive SendResult where
  | sent (chs : Registry)
  | blockedOnNilChan
  | blockedOnFullChan
  deriving DecidableEq, Repr

/-- The statement `ctrlReqChs[id] <- msg`: a send on a `nil` channel blocks
forever; a send on a channel without room blocks until a receiver takes a
message; otherwise the message joins the queue of that channel. -/
def send (chs : Registry) (id : String) (msg : Option ControlMessage) : SendResult :=
  match chs.get id with
  | none => .blockedOnNilChan
  | some ch =>
    if ch.room = 0 then .blockedOnFullChan
    else .sent (chs.set id { queue := ch.queue ++ [msg], room := ch.room - 1 })

/-! ## The API handlers: `pkg/northbound/rsm.go` -/

/-- The message `rsmapi.Ack`. -/
structure Ack where
  Success : Bool
  Cause : String
  deriving DecidableEq, Repr

/-- The message `rsmapi.GetSliceResponse`. -/
structure GetSliceResponse where
  Ack : Option Ack
  deriving DecidableEq, Repr

/-- The message `rsmapi.CreateSliceResponse`. -/
structure CreateSliceResponse where
  Ack : Option Ack
  deriving DecidableEq, Repr

/-- The message `rsmapi.UpdateSliceResponse`. -/
structure UpdateSliceResponse where
  Ack : Option Ack
  deriving DecidableEq, Repr

/-- The message `rsmapi.DeleteSliceResponse`. -/
structure DeleteSliceResponse where
  Ack : Option Ack
  deriving DecidableEq, Repr

/-- The message `rsmapi.GetUeSliceAssociationResponse`. -/
structure GetUeSliceAssociationResponse where
  Ack : Option Ack
  deriving DecidableEq, Repr

/-- The message `rsmapi.SetUeSliceAssociationResponse`. -/
structure SetUeSliceAssociationResponse where
  Ack : Option Ack
  deriving DecidableEq, Repr

/-- The message `rsmapi.GetSlicesRequest`; the handler reads none of it. -/
structure GetSlicesRequest where
  E2NodeId : String
  deriving DecidableEq, Repr

/-- The message `rsmapi.CreateSliceRequest`. -/
structure CreateSliceRequest where
  E2NodeId : String
  SliceId : String
  SchedulerType : Rsmapi.SchedulerType
  SliceType : Rsmapi.SliceType
  Weight : String
  deriving DecidableEq, Repr

/-- The message `rsmapi.UpdateSliceRequest`. -/
structure UpdateSliceRequest where
  E2NodeId : String
  SliceId : String
  SchedulerType : Rsmapi.SchedulerType
  SliceType : Rsmapi.SliceType
  Weight : String
  deriving DecidableEq, Repr

/-- The message `rsmapi.DeleteSliceRequest`. -/
structure DeleteSliceRequest where
  E2NodeId : String
  SliceId : String
  SliceType : Rsmapi.SliceType
  deriving DecidableEq, Repr

/-- The message `rsmapi.GetUeSliceAssociationRequest`; the handler reads none of
it. -/
structure GetUeSliceAssociationRequest where
  UeId : String
  deriving DecidableEq, Repr

/-- The message `rsmapi.UeId`; the field `Type` is written `Type_`. -/
structure UeId where
  UeId : String
  Type_ : Rsmapi.UeIdType
  deriving DecidableEq, Repr

/-- The message `rsmapi.SetUeSliceAssociationRequest`; the fields the handler
reads. -/
structure SetUeSliceAssociationRequest where
  E2NodeId : String
  UeId : List UeId
  DlSliceId : String
  UlSliceId : String
  deriving DecidableEq, Repr

/-- The struct `Server`; the handlers read only `ctrlReqChs` and the
`ctrlMsgHandler`, which has no fields. -/
structure Server where
  ctrlReqChs : Registry
  deriving DecidableEq, Repr

/-- The arguments of one call of `CreateControlRequest`. -/
structure EncoderCall where
  cmdType : E2SmRsmCommand
  sliceConfig : Option SliceConfig
  sliceAssoc : Option SliceAssociate
  deriving DecidableEq, Repr

/-- How a handler ends: it returns its pair `(response, error)`, or the
goroutine stays in the send statement. -/
inductive Status (ρ : Type) where
  | returned (resp : Option ρ) (err : Option Error)
  | blockedOnNilChan
  | blockedOnFullChan
  deriving DecidableEq, Repr

/-- One run of a handler: the calls of `CreateControlRequest` it made, in
order; the registry when it ends; how it ends. -/
structure Exec (ρ : Type) where
  encoderCalls : List EncoderCall
  ctrlReqChs : Registry
  status : Status ρ
  deriving DecidableEq, Repr

/-- The switch on `request.SchedulerType` of `CreateSlice` (lines 101-111) and
`UpdateSlice` (lines 173-183). -/
def sliceSchedulerType : Rsmapi.SchedulerType → E2sm.SchedulerType
  | .ROUND_ROBIN => .ROUND_ROBIN
  | .PROPORTIONALLY_FAIR => .PROPORTIONALLY_FAIR
  | .QOS_BASED => .QOS_BASED
  | _ => .ROUND_ROBIN

/-- The switch on `request.SliceType` of `CreateSlice` (lines 113-121),
`UpdateSlice` (lines 185-193) and `DeleteSlice` (lines 233-241). -/
def sliceType : Rsmapi.SliceType → E2sm.SliceType
  | .DL_SLICE => .DL_SLICE
  | .UL_SLICE => .UL_SLICE
  | _ => .DL_SLICE

/-- The method `Server.GetSlices`. -/
def GetSlices (s : Server) (_request : GetSlicesRequest) : Exec GetSliceResponse :=
  { encoderCalls := [], ctrlReqChs := s.ctrlReqChs,
    status := .returned (some { Ack := some {
      Success := false,
      Cause := "not implemented yet" } }) none }

/-- The method `Server.CreateSlice`. -/
def CreateSlice (L : Lib) (s : Server) (request : CreateSliceRequest) : Exec CreateSliceResponse :=
  match Atoi request.SliceId with
  | .error err =>
    { encoderCalls := [], ctrlReqChs := s.ctrlReqChs,
      status := .returned (some { Ack := some {
        Success := false,
        Cause := "failed to convert slice id to int - " ++ (Error.numError err).text L } }) none }
  | .ok sliceID =>
  match Atoi request.Weight with
  | .error err =>
    { encoderCalls := [], ctrlReqChs := s.ctrlReqChs,
      status := .returned (some { Ack := some {
        Success := false,
        Cause := "failed to convert weight to int - " ++ (Error.numError err).text L } }) none }
  | .ok weightInt =>
  let weight := int32 weightInt
  let cmdType := E2SmRsmCommand.SLICE_CREATE
  let sliceConfig : SliceConfig :=
    { SliceId := some { Value := int64 sliceID },
      SliceConfigParameters := some {
        SchedulerType := sliceSchedulerType request.SchedulerType,
        Weight := some weight },
      SliceType := sliceType request.SliceType }
  let call : EncoderCall := { cmdType := cmdType, sliceConfig := some sliceConfig, sliceAssoc := none }
  match CreateControlRequest L cmdType (some sliceConfig) none with
  | (_, some err) =>
    { encoderCalls := [call], ctrlReqChs := s.ctrlReqChs,
      status := .returned (some { Ack := some {
        Success := false,
        Cause := "failed to create the control message - " ++ err.text L } }) none }
  | (ctrlMsg, none) =>
    match send s.ctrlReqChs request.E2NodeId ctrlMsg with
    | .blockedOnNilChan =>
      { encoderCalls := [call], ctrlReqChs := s.ctrlReqChs, status := .blockedOnNilChan }
    | .blockedOnFullChan =>
      { encoderCalls := [call], ctrlReqChs := s.ctrlReqChs, status := .blockedOnFullChan }
    | .sent chs =>
      { encoderCalls := [call], ctrlReqChs := chs,
        status := .returned (some { Ack := some { Success := true, Cause := "" } }) none }

/-- The method `Server.UpdateSlice`. -/
def UpdateSlice (L : Lib) (s : Server) (request : UpdateSliceRequest) : Exec UpdateSliceResponse :=
  match Atoi request.SliceId with
  | .error err =>
    { encoderCalls := [], ctrlReqChs := s.ctrlReqChs,
      status := .returned (some { Ack := some {
        Success := false,
        Cause := "failed to convert slice id to int - " ++ (Error.numError err).text L } }) none }
  | .ok sliceID =>
  match Atoi request.Weight with
  | .error err =>
    { encoderCalls := [], ctrlReqChs := s.ctrlReqChs,
      status := .returned (some { Ack := some {
        Success := false,
        Cause := "failed to convert weight to int - " ++ (Error.numError err).text L } }) none }
  | .ok weightInt =>
  let weight := int32 weightInt
  let cmdType := E2SmRsmCommand.SLICE_UPDATE
  let sliceConfig : SliceConfig :=
    { SliceId := some { Value := int64 sliceID },
      SliceConfigParameters := some {
        SchedulerType := sliceSchedulerType request.SchedulerType,
        Weight := some weight },
      SliceType := sliceType request.SliceType }
  let call : EncoderCall := { cmdType := cmdType, sliceConfig := some sliceConfig, sliceAssoc := none }
  match CreateControlRequest L cmdType (some sliceConfig) none with
  | (_, some err) =>
    { encoderCalls := [call], ctrlReqChs := s.ctrlReqChs,
      status := .returned (some { Ack := some {
        Success := false,
        Cause := "failed to create the control message - " ++ err.text L } }) none }
  | (ctrlMsg, none) =>
    match send s.ctrlReqChs request.E2NodeId ctrlMsg with
    | .blockedOnNilChan =>
      { encoderCalls := [call], ctrlReqChs := s.ctrlReqChs, status := .blockedOnNilChan }
    | .blockedOnFullChan =>
      { encoderCalls := [call], ctrlReqChs := s.ctrlReqChs, status := .blockedOnFullChan }
    | .sent chs =>
      { encoderCalls := [call], ctrlReqChs := chs,
        status := .returned (some { Ack := some { Success := true, Cause := "" } }) none }

/-- The method `Server.DeleteSlice`. -/
def DeleteSlice (L : Lib) (s : Server) (request : DeleteSliceRequest) : Exec DeleteSliceResponse :=
  match Atoi request.SliceId with
  | .error err =>
    { encoderCalls := [], ctrlReqChs := s.ctrlReqChs,
      status := .returned (some { Ack := some {
        Success := false,
        Cause := "failed to convert slice id to int - " ++ (Error.numError err).text L } }) none }
  | .ok sliceID =>
  let cmdType := E2SmRsmCommand.SLICE_DELETE
  let sliceConfig : SliceConfig :=
    { SliceId := some { Value := int64 sliceID },
      SliceConfigParameters := none,
      SliceType := sliceType request.SliceType }
  let call : EncoderCall := { cmdType := cmdType, sliceConfig := some sliceConfig, sliceAssoc := none }
  match CreateControlRequest L cmdType (some sliceConfig) none with
  | (_, some err) =>
    { encoderCalls := [call], ctrlReqChs := s.ctrlReqChs,
      status := .returned (some { Ack := some {
        Success := false,
        Cause := "failed to create the control message - " ++ err.text L } }) none }
  | (ctrlMsg, none) =>
    match send s.ctrlReqChs request.E2NodeId ctrlMsg with
    | .blockedOnNilChan =>
      { encoderCalls := [call], ctrlReqChs := s.ctrlReqChs, status := .blockedOnNilChan }
    | .blockedOnFullChan =>
      { encoderCalls := [call], ctrlReqChs := s.ctrlReqChs, status := .blockedOnFullChan }
    | .sent chs =>
      { encoderCalls := [call], ctrlReqChs := chs,
        status := .returned (some { Ack := some { Success := true, Cause := "" } }) none }

/-- The method `Server.GetUeSliceAssociation`. -/
def GetUeSliceAssociation (s : Server) (_request : GetUeSliceAssociationRequest) :
    Exec GetUeSliceAssociationResponse :=
  { encoderCalls := [], ctrlReqChs := s.ctrlReqChs,
    status := .returned (some { Ack := some {
      Success := false,
      Cause := "not implemented yet" } }) none }

/-- The loop `for _, ueid := range request.UeId` of `SetUeSliceAssociation`
(lines 306-320), run on the entries still to be scanned from the current
values of `reqUeId` and `hasValidUeId`: it ends with the final values of the
two variables, or with the response of the `return` inside it. -/
def scanUeId (L : Lib) :
    List UeId → Int → Bool → Except SetUeSliceAssociationResponse (Int × Bool)
  | [], reqUeId, hasValidUeId => .ok (reqUeId, hasValidUeId)
  | ueid :: rest, reqUeId, hasValidUeId =>
    if ueid.Type_ = Rsmapi.UeIdType.DU_UE_F1_AP_ID then
      match Atoi ueid.UeId with
      | .error err =>
        .error { Ack := some {
          Success := false,
          Cause := "failed to convert ue id to int - " ++ (Error.numError err).text L } }
      | .ok id => scanUeId L rest (int64 id) true
    else scanUeId L rest reqUeId hasValidUeId

/-- The lines 288-301 of `SetUeSliceAssociation`: the optional uplink slice
id, as the pair `(hasUlSliceID, ulSliceID)`. -/
def parseUlSliceId (UlSliceId : String) : Except NumError (Bool × Int) :=
  if UlSliceId ≠ "" then
    match Atoi UlSliceId with
    | .error err => .error err
    | .ok ulSliceID => .ok (true, ulSliceID)
  else .ok (false, 0)

/-- The method `Server.SetUeSliceAssociation`. -/
def SetUeSliceAssociation (L : Lib) (s : Server) (request : SetUeSliceAssociationRequest) :
    Exec SetUeSliceAssociationResponse :=
  let cmdType := E2SmRsmCommand.UE_ASSOCIATE
  match Atoi request.DlSliceId with
  | .error err =>
    { encoderCalls := [], ctrlReqChs := s.ctrlReqChs,
      status := .returned (some { Ack := some {
        Success := false,
        Cause := "failed to convert slice id to int - " ++ (Error.numError err).text L } }) none }
  | .ok dlSliceID =>
  match parseUlSliceId request.UlSliceId with
  | .error err =>
    { encoderCalls := [], ctrlReqChs := s.ctrlReqChs,
      status := .returned (some { Ack := some {
        Success := false,
        Cause := "failed to convert slice id to int - " ++ (Error.numError err).text L } }) none }
  | .ok (hasUlSliceID, ulSliceID) =>
  match scanUeId L request.UeId 0 false with
  | .error resp =>
    { encoderCalls := [], ctrlReqChs := s.ctrlReqChs, status := .returned (some resp) none }
  | .ok (reqUeId, hasValidUeId) =>
  if ¬ hasValidUeId then
    { encoderCalls := [], ctrlReqChs := s.ctrlReqChs,
      status := .returned (some { Ack := some {
        Success := false,
        Cause := "need du-ue-f1ap-id" } }) none }
  else
  let ueID : UeIdentity := .DuUeF1ApId { Value := reqUeId }
  let bearerID : BearerId :=
    .DrbId (.FourGdrbId { Value := int32 1, Qci := some { Value := int32 1 } })
  let bearerIDs : List BearerId := [] ++ [bearerID]
  let sliceAssoc : SliceAssociate :=
    { DownLinkSliceId := some { Value := int64 dlSliceID },
      UplinkSliceId := if hasUlSliceID then some { Value := int64 ulSliceID } else none,
      UeId := some ueID,
      BearerId := bearerIDs }
  let call : EncoderCall := { cmdType := cmdType, sliceConfig := none, sliceAssoc := some sliceAssoc }
  match CreateControlRequest L cmdType none (some sliceAssoc) with
  | (_, some err) =>
    { encoderCalls := [call], ctrlReqChs := s.ctrlReqChs,
      status := .returned (some { Ack := some {
        Success := false,
        Cause := "failed to create the control message - " ++ err.text L } }) none }
  | (ctrlMsg, none) =>
    match send s.ctrlReqChs request.E2NodeId ctrlMsg with
    | .blockedOnNilChan =>
      { encoderCalls := [call], ctrlReqChs := s.ctrlReqChs, status := .blockedOnNilChan }
    | .blockedOnFullChan =>
      { encoderCalls := [call], ctrlReqChs := s.ctrlReqChs, status := .blockedOnFullChan }
    | .sent chs =>
      { encoderCalls := [call], ctrlReqChs := chs,
        status := .returned (some { Ack := some { Success := true, Cause := "" } }) none }

/-! ## The topology client: `pkg/nib/rnib/rnib.go` -/

/-- The type `topoapi.ID`. -/
abbrev ID := String

/-- The constant `topoapi.CONTROLS`. -/
def CONTROLS : String := "controls"

/-- The message `topoapi.Entity`; the field the repository reads. -/
structure Entity where
  KindID : ID
  deriving DecidableEq, Repr

/-- The message `topoapi.Relation`; the fields the repository reads. -/
structure Relation where
  KindID : ID
  SrcEntityID : ID
  TgtEntityID : ID
  deriving DecidableEq, Repr

/-- The alternatives `Object_Entity`, `Object_Relation` and `Object_Kind` of the
field `Obj` of `topoapi.Object`, each a struct around a pointer. -/
inductive ObjectObj where
  | Entity (entity : Option Entity)
  | Relation (relation : Option Relation)
  | Kind (kindName : String)
  deriving DecidableEq, Repr

/-- The message `topoapi.Object`; `Obj` is an interface value, `none` when it is
`nil`; `Aspects` maps the name of an aspect type to its serialized value. -/
structure Object where
  ID : ID
  Obj : Option ObjectObj
  Aspects : List (String × Bytes) := []
  deriving DecidableEq, Repr

/-- The message `topoapi.Filter`; the repository builds only `Filter_Equal_`. -/
inductive Filter where
  | Equal_ (Value : String)
  deriving DecidableEq, Repr

/-- The message `topoapi.RelationFilter`. -/
structure RelationFilter where
  SrcId : String
  RelationKind : String
  TargetKind : String
  deriving DecidableEq, Repr

/-- The message `topoapi.Filters`; the fields the repository sets. -/
structure Filters where
  KindFilter : Option Filter
  RelationFilter : Option RelationFilter
  deriving DecidableEq, Repr

/-- The interface `toposdk.Client`: `List` with the filters given through
`toposdk.WithListFilters`, returning the pair `(objects, err)`, and `Get`,
returning the pair `(object, err)`. -/
structure ToposdkClient where
  List : Filters → List Object × Option Error
  Get : ID → Option Object × Option Error

/-- The struct `Client`. -/
structure Client where
  client : ToposdkClient

/-- How a function without channel operations ends: it returns, or a run-time
panic (a failed type assertion, a nil dereference) unwinds it. -/
inductive Run (α : Type) where
  | done (v : α)
  | panic
  deriving DecidableEq, Repr

/-- The function `getControlRelationFilter`. -/
def getControlRelationFilter : Filters :=
  { KindFilter := some (.Equal_ CONTROLS), RelationFilter := none }

/-- The loop `for _, object := range objects` of `E2NodeIDs` (lines 55-59), run
on the objects still to be visited from the current value of `e2NodeIDs`. -/
def e2NodeIDsLoop : List Object → List ID → Run (List ID)
  | [], e2NodeIDs => .done e2NodeIDs
  | object :: rest, e2NodeIDs =>
    match object.Obj with
    | some (.Relation (some relation)) =>
      let e2NodeID := relation.TgtEntityID
      e2NodeIDsLoop rest (e2NodeIDs ++ [e2NodeID])
    | _ => .panic

/-- The method `Client.E2NodeIDs`.  The slice `e2NodeIDs` is made with length
`len(objects)`, so it starts as that many zero values, the empty string. -/
def E2NodeIDs (c : Client) : Run (List ID × Option Error) :=
  match c.client.List getControlRelationFilter with
  | (_, some err) => .done ([], some err)
  | (objects, none) =>
    let e2NodeIDs : List ID := List.replicate objects.length ""
    match e2NodeIDsLoop objects e2NodeIDs with
    | .panic => .panic
    | .done e2NodeIDs => .done (e2NodeIDs, none)

/-- The constant `topoapi.CONTAINS`. -/
def CONTAINS : String := "contains"

/-- The constant `topoapi.E2CELL`. -/
def E2CELL : String := "e2cell"

/-- The message `topoapi.E2Cell`; the repository reads none of its fields. -/
structure E2Cell where
  CellObjectID : String
  deriving DecidableEq, Repr

/-- The message `types.Any`. -/
structure Any where
  TypeUrl : String
  Value : Bytes
  deriving DecidableEq, Repr

/-- The message `topoapi.ServiceModelInfo`; `RanFunctions` is a `[]*types.Any`. -/
structure ServiceModelInfo where
  RanFunctions : List (Option Any)
  deriving DecidableEq, Repr

/-- The message `topoapi.E2Node`.  The Go map `ServiceModels` is the list of its
entries in the order in which the `range` statement visits them; that order is
not fixed by the language. -/
structure E2Node where
  ServiceModels : List (String × Option ServiceModelInfo)
  deriving DecidableEq, Repr

/-- The message `topoapi.RSMSupportedSlicingConfigItem`; its enum field is kept
as the wire value. -/
structure RSMSupportedSlicingConfigItem where
  SlicingConfigType : Int
  deriving DecidableEq, Repr

/-- The message `topoapi.RSMNodeSlicingCapabilityItem`; the field the repository
reads. -/
structure RSMNodeSlicingCapabilityItem where
  SupportedConfig : List RSMSupportedSlicingConfigItem
  deriving DecidableEq, Repr

/-- The message `topoapi.RSMRanFunction`. -/
structure RSMRanFunction where
  RicSlicingNodeCapabilityList : List RSMNodeSlicingCapabilityItem
  deriving DecidableEq, Repr

/-- The functions of the `topoapi` and `proto` libraries the topology client
calls. -/
structure TopoLib where
  /-- The value of a fresh `E2Cell` after `obj.GetAspect(cellObject)`; the
  error of that call is not read. -/
  GetAspectE2Cell : Object → E2Cell
  /-- The value of a fresh `E2Node` after `object.GetAspect(e2Node)`; the
  error of that call is not read. -/
  GetAspectE2Node : Object → E2Node
  /-- The function `proto.Unmarshal` into a fresh `RSMRanFunction`. -/
  UnmarshalRSMRanFunction : Bytes → Except Error RSMRanFunction

/-- The nil-safe getter `obj.GetEntity()`. -/
def Object.GetEntity (obj : Object) : Option Entity :=
  match obj.Obj with
  | some (.Entity entity) => entity
  | _ => none

/-- The nil-safe getter `entity.GetKindID()`. -/
def Entity.GetKindID : Option Entity → ID
  | some entity => entity.KindID
  | none => ""

/-- The nil-safe getter `e2Node.GetServiceModels()`. -/
def E2Node.GetServiceModels : Option E2Node → List (String × Option ServiceModelInfo)
  | some e2Node => e2Node.ServiceModels
  | none => []

/-- The nil-safe getter `sm.GetRanFunctions()`. -/
def ServiceModelInfo.GetRanFunctions : Option ServiceModelInfo → List (Option Any)
  | some sm => sm.RanFunctions
  | none => []

/-- The nil-safe getter `ranFunc.GetValue()`. -/
def Any.GetValue : Option Any → Bytes
  | some ranFunc => ranFunc.Value
  | none => []

/-- The method `Client.GetE2NodeAspects`. -/
def GetE2NodeAspects (T : TopoLib) (c : Client) (nodeID : ID) :
    Run (Option E2Node × Option Error) :=
  match c.client.Get nodeID with
  | (_, some err) => .done (none, some err)
  | (none, none) => .panic
  | (some object, none) =>
    let e2Node := T.GetAspectE2Node object
    .done (some e2Node, none)

/-- The two innermost loops of `GetSupportedSlicingConfigTypes` (lines 93-97),
run on the capabilities still to be visited from the current `result`. -/
def capabilityLoop : List RSMNodeSlicingCapabilityItem →
    List RSMSupportedSlicingConfigItem → List RSMSupportedSlicingConfigItem
  | [], result => result
  | cap :: rest, result =>
    capabilityLoop rest (cap.SupportedConfig.foldl (fun result cfg => result ++ [cfg]) result)

/-- The loop `for _, ranFunc := range sm.GetRanFunctions()` (lines 86-98), run
on the RAN functions still to be visited from the current `result`. -/
def ranFunctionLoop (T : TopoLib) : List (Option Any) →
    List RSMSupportedSlicingConfigItem → List RSMSupportedSlicingConfigItem
  | [], result => result
  | ranFunc :: rest, result =>
    match T.UnmarshalRSMRanFunction (Any.GetValue ranFunc) with
    | .error _err => ranFunctionLoop T rest result
    | .ok rsmRanFunc =>
      ranFunctionLoop T rest (capabilityLoop rsmRanFunc.RicSlicingNodeCapabilityList result)

/-- The loop `for smName, sm := range e2Node.GetServiceModels()` (lines 85-99),
run on the entries still to be visited from the current `result`. -/
def serviceModelLoop (T : TopoLib) : List (String × Option ServiceModelInfo) →
    List RSMSupportedSlicingConfigItem → List RSMSupportedSlicingConfigItem
  | [], result => result
  | (_smName, sm) :: rest, result =>
    serviceModelLoop T rest (ranFunctionLoop T (ServiceModelInfo.GetRanFunctions sm) result)

/-- The method `Client.GetSupportedSlicingConfigTypes`. -/
def GetSupportedSlicingConfigTypes (T : TopoLib) (c : Client) (nodeID : ID) :
    Run (List RSMSupportedSlicingConfigItem × Option Error) :=
  let result : List RSMSupportedSlicingConfigItem := []
  match GetE2NodeAspects T c nodeID with
  | .panic => .panic
  | .done (_, some err) => .done ([], some err)
  | .done (e2Node, none) =>
    .done (serviceModelLoop T (E2Node.GetServiceModels e2Node) result, none)

/-- The loop `for _, obj := range objects` of `GetCells` (lines 115-122), run on
the objects still to be visited from the current value of `cells`. -/
def getCellsLoop (T : TopoLib) : List Object → List E2Cell → List E2Cell
  | [], cells => cells
  | obj :: rest, cells =>
    let targetEntity := obj.GetEntity
    if Entity.GetKindID targetEntity = E2CELL then
      let cellObject := T.GetAspectE2Cell obj
      getCellsLoop T rest (cells ++ [cellObject])
    else getCellsLoop T rest cells

/-- The filter that `GetCells` builds for the node `nodeID`. -/
def getCellsFilter (nodeID : ID) : Filters :=
  { KindFilter := none,
    RelationFilter := some { SrcId := nodeID, RelationKind := CONTAINS, TargetKind := "" } }

/-- The method `Client.GetCells`. -/
def GetCells (T : TopoLib) (c : Client) (nodeID : ID) : List E2Cell × Option Error :=
  match c.client.List (getCellsFilter nodeID) with
  | (_, some err) => ([], some err)
  | (objects, none) =>
    let cells := getCellsLoop T objects []
    if cells.length = 0 then
      ([], some (.notFound ("there is no cell to subscribe for e2 node " ++ nodeID)))
    else (cells, none)

/-! ## Words of the specification about runs and topology -/

/-- A listed object that is an entity of the kind `E2CELL`. -/
def isE2CellEntity (obj : Object) : Bool :=
  match obj.Obj with
  | some (.Entity (some entity)) => entity.KindID = E2CELL
  | _ => false

/-- The supported-config items of the capability lists of those RAN functions
of the service models, in the given order, whose descriptor unmarshals. -/
def supportedConfigItems (T : TopoLib) (serviceModels : List (String × Option ServiceModelInfo)) :
    List RSMSupportedSlicingConfigItem :=
  serviceModels.flatMap fun entry =>
    (ServiceModelInfo.GetRanFunctions entry.2).flatMap fun ranFunc =>
      match T.UnmarshalRSMRanFunction (Any.GetValue ranFunc) with
      | .error _ => []
      | .ok rsmRanFunc =>
        rsmRanFunc.RicSlicingNodeCapabilityList.flatMap fun cap => cap.SupportedConfig

/-- The run returned, with the `nil` error and a response whose acknowledgment
is present. -/
def Exec.returnedAck {ρ : Type} (ackOf : ρ → Option Ack) (e : Exec ρ) (ack : Ack) : Prop :=
  ∃ resp, e.status = .returned (some resp) none ∧ ackOf resp = some ack

/-- The run returned a negative acknowledgment with a cause that is not empty,
and the `nil` error. -/
def Exec.nacked {ρ : Type} (ackOf : ρ → Option Ack) (e : Exec ρ) : Prop :=
  ∃ cause, e.returnedAck ackOf { Success := false, Cause := cause } ∧ cause ≠ ""

/-- The run made one encoder call, put the message that call returns at the end
of the queue of the channel `ch` of `node`, taking one unit of its room, left
the channel of every other node as it was in `s`, and returned the positive
acknowledgment. -/
def Exec.delivered {ρ : Type} (L : Lib) (ackOf : ρ → Option Ack) (s : Server) (node : String)
    (ch : Chan) (e : Exec ρ) : Prop :=
  ∃ call : EncoderCall, e.encoderCalls = [call] ∧
    e.returnedAck ackOf { Success := true, Cause := "" } ∧
    e.ctrlReqChs.get node =
      some { queue := ch.queue ++
               [(CreateControlRequest L call.cmdType call.sliceConfig call.sliceAssoc).1],
             room := ch.room - 1 } ∧
    ∀ other : String, other ≠ node → e.ctrlReqChs.get other = s.ctrlReqChs.get other

/-- Every return of the run carries the `nil` error and a response whose
acknowledgment is present. -/
def Exec.returnsInBand {ρ : Type} (ackOf : ρ → Option Ack) (e : Exec ρ) : Prop :=
  ∀ resp err, e.status = .returned resp err →
    err = none ∧ ∃ r ack, resp = some r ∧ ackOf r = some ack

/-- An encoder call of the run returned an error to the handler.  This is
narrower than a failure of encoding: `CreateControlRequest` returns an error
only when the control header fails to marshal, and returns none when the
payload fails; see `Exec.encodingFailed`. -/
def Exec.encoderReturnedError {ρ : Type} (L : Lib) (e : Exec ρ) : Prop :=
  ∃ call ∈ e.encoderCalls,
    (CreateControlRequest L call.cmdType call.sliceConfig call.sliceAssoc).2 ≠ none

/-- An encoding failure of the run: for the arguments of one of its encoder
calls, building the control header or building the control payload returns an
error. -/
def Exec.encodingFailed {ρ : Type} (L : Lib) (e : Exec ρ) : Prop :=
  ∃ call ∈ e.encoderCalls,
    (CreateControlHandler L call.cmdType).2 ≠ none ∨
      (CreateControlPayload L call.cmdType call.sliceConfig call.sliceAssoc).2 ≠ none

/-- What the caller of a handler observes: the acknowledgment and the error it
gets back, or no return. -/
def Exec.observed {ρ : Type} (ackOf : ρ → Option Ack) (e : Exec ρ) : Status (Option Ack) :=
  match e.status with
  | .returned resp err => .returned (resp.map ackOf) err
  | .blockedOnNilChan => .blockedOnNilChan
  | .blockedOnFullChan => .blockedOnFullChan

/-! ## The pipeline of the specification: validator, encoder, router

Section 2 of the specification describes every mutating handler as one
pipeline: the validator yields typed parameters or fails with a cause, the
encoder builds the control message, the router hands it to the channel of the
node.  `dispatch` is that pipeline after validation and the `validate`
functions are the validators; the handlers above are proved equal to their
compositions below. -/

/-- The encoder and router stages, run on the outcome `v` of validation: the
response to return at once, or the arguments of the encoder call. -/
def dispatch {ρ : Type} (L : Lib) (mk : Option Ack → ρ) (s : Server) (node : String)
    (v : Except ρ EncoderCall) : Exec ρ :=
  match v with
  | .error resp =>
    { encoderCalls := [], ctrlReqChs := s.ctrlReqChs, status := .returned (some resp) none }
  | .ok call =>
    match CreateControlRequest L call.cmdType call.sliceConfig call.sliceAssoc with
    | (_, some err) =>
      { encoderCalls := [call], ctrlReqChs := s.ctrlReqChs,
        status := .returned (some (mk (some {
          Success := false,
          Cause := "failed to create the control message - " ++ err.text L }))) none }
    | (ctrlMsg, none) =>
      match send s.ctrlReqChs node ctrlMsg with
      | .blockedOnNilChan =>
        { encoderCalls := [call], ctrlReqChs := s.ctrlReqChs, status := .blockedOnNilChan }
      | .blockedOnFullChan =>
        { encoderCalls := [call], ctrlReqChs := s.ctrlReqChs, status := .blockedOnFullChan }
      | .sent chs =>
        { encoderCalls := [call], ctrlReqChs := chs,
          status := .returned (some (mk (some { Success := true, Cause := "" }))) none }

/-- The validator of `CreateSlice` and `UpdateSlice`. -/
def validateSlice {ρ : Type} (L : Lib) (mk : Option Ack → ρ) (cmdType : E2SmRsmCommand)
    (SliceId Weight : String) (schedulerType : Rsmapi.SchedulerType)
    (sliceType_ : Rsmapi.SliceType) : Except ρ EncoderCall :=
  match Atoi SliceId with
  | .error err =>
    .error (mk (some {
      Success := false,
      Cause := "failed to convert slice id to int - " ++ (Error.numError err).text L }))
  | .ok sliceID =>
    match Atoi Weight with
    | .error err =>
      .error (mk (some {
        Success := false,
        Cause := "failed to convert weight to int - " ++ (Error.numError err).text L }))
    | .ok weightInt =>
      .ok { cmdType := cmdType,
            sliceConfig := some {
              SliceId := some { Value := int64 sliceID },
              SliceConfigParameters := some {
                SchedulerType := sliceSchedulerType schedulerType,
                Weight := some (int32 weightInt) },
              SliceType := sliceType sliceType_ },
            sliceAssoc := none }

/-- The validator of `DeleteSlice`. -/
def validateDelete (L : Lib) (request : DeleteSliceRequest) :
    Except DeleteSliceResponse EncoderCall :=
  match Atoi request.SliceId with
  | .error err =>
    .error { Ack := some {
      Success := false,
      Cause := "failed to convert slice id to int - " ++ (Error.numError err).text L } }
  | .ok sliceID =>
    .ok { cmdType := .SLICE_DELETE,
          sliceConfig := some {
            SliceId := some { Value := int64 sliceID },
            SliceConfigParameters := none,
            SliceType := sliceType request.SliceType },
          sliceAssoc := none }

/-- The validator of `SetUeSliceAssociation`. -/
def validateAssociate (L : Lib) (request : SetUeSliceAssociationRequest) :
    Except SetUeSliceAssociationResponse EncoderCall :=
  match Atoi request.DlSliceId with
  | .error err =>
    .error { Ack := some {
      Success := false,
      Cause := "failed to convert slice id to int - " ++ (Error.numError err).text L } }
  | .ok dlSliceID =>
    match parseUlSliceId request.UlSliceId with
    | .error err =>
      .error { Ack := some {
        Success := false,
        Cause := "failed to convert slice id to int - " ++ (Error.numError err).text L } }
    | .ok (hasUlSliceID, ulSliceID) =>
      match scanUeId L request.UeId 0 false with
      | .error resp => .error resp
      | .ok (reqUeId, hasValidUeId) =>
        if ¬ hasValidUeId then
          .error { Ack := some { Success := false, Cause := "need du-ue-f1ap-id" } }
        else
          .ok { cmdType := .UE_ASSOCIATE,
                sliceConfig := none,
                sliceAssoc := some {
                  DownLinkSliceId := some { Value := int64 dlSliceID },
                  UplinkSliceId :=
                    if hasUlSliceID then some { Value := int64 ulSliceID } else none,
                  UeId := some (.DuUeF1ApId { Value := reqUeId }),
                  BearerId := [.DrbId (.FourGdrbId {
                    Value := int32 1, Qci := some { Value := int32 1 } })] } }

/-! ## Sample values -/

/-- A stand-in for the external libraries: a header is the command, a message
a list of integers, and marshalling writes them down as bytes. -/
def sampleLib : Lib where
  Header := E2SmRsmCommand
  Message := List Int
  CreateE2SmRsmControlHeader := fun cmdType => cmdType
  CreateE2SmRsmControlMessageSliceCreate := fun c =>
    [1, SliceConfig.GetSliceIdValue c,
      match c with
      | some { SliceConfigParameters := some { Weight := some w, .. }, .. } => w
      | _ => 0]
  CreateE2SmRsmControlMessageSliceUpdate := fun c =>
    [2, SliceConfig.GetSliceIdValue c,
      match c with
      | some { SliceConfigParameters := some { Weight := some w, .. }, .. } => w
      | _ => 0]
  CreateE2SmRsmControlMessageSliceDelete := fun id ty =>
    [3, id, if ty = E2sm.SliceType.UL_SLICE then 1 else 0]
  CreateE2SmRsmControlMessageSliceAssociate := fun a =>
    [4, match a with
        | some { DownLinkSliceId := some id, .. } => id.Value
        | _ => 0,
      match a with
        | some { UeId := some (.DuUeF1ApId v), .. } => v.Value
        | _ => 0]
  MarshalHeader := fun cmdType =>
    .ok [8, match cmdType with
            | .SLICE_CREATE => 0
            | .SLICE_UPDATE => 1
            | .SLICE_DELETE => 2
            | .UE_ASSOCIATE => 3
            | .EVENT_TRIGGERS => 4
            | .unrecognized v => v.toNat % 256]
  MarshalMessage := fun msg => .ok (msg.map fun n => n.toNat % 256)
  Quote := fun text => "\"" ++ text ++ "\""
  CommandString := fun cmdType =>
    match cmdType with
    | .SLICE_CREATE => "E2_SM_RSM_COMMAND_SLICE_CREATE"
    | .SLICE_UPDATE => "E2_SM_RSM_COMMAND_SLICE_UPDATE"
    | .SLICE_DELETE => "E2_SM_RSM_COMMAND_SLICE_DELETE"
    | .UE_ASSOCIATE => "E2_SM_RSM_COMMAND_UE_ASSOCIATE"
    | .EVENT_TRIGGERS => "E2_SM_RSM_COMMAND_EVENT_TRIGGERS"
    | .unrecognized v => toString v

/-- A server whose registry holds one node, `node-1`, with room for one
message. -/
def sampleServer : Server :=
  { ctrlReqChs := [("node-1", { queue := [], room := 1 })] }

/-- A server whose registry is empty. -/
def emptyServer : Server := { ctrlReqChs := [] }

/-- The request of the end-to-end scenario. -/
def sampleCreate : CreateSliceRequest :=
  { E2NodeId := "node-1", SliceId := "5", SchedulerType := .ROUND_ROBIN,
    SliceType := .DL_SLICE, Weight := "20" }

/-- An update of slice 5 to the weight 30 under the QoS-based scheduler. -/
def sampleUpdate : UpdateSliceRequest :=
  { E2NodeId := "node-1", SliceId := "5", SchedulerType := .QOS_BASED,
    SliceType := .DL_SLICE, Weight := "30" }

/-- The deletion of the downlink slice 5. -/
def sampleDelete : DeleteSliceRequest :=
  { E2NodeId := "node-1", SliceId := "5", SliceType := .DL_SLICE }

/-- A request that associates a UE given by four identifiers, two of them of
the kind `DU_UE_F1_AP_ID`. -/
def sampleAssociate : SetUeSliceAssociationRequest :=
  { E2NodeId := "node-1",
    UeId := [{ UeId := "x", Type_ := .CU_UE_F1_AP_ID }, { UeId := "7", Type_ := .DU_UE_F1_AP_ID },
             { UeId := "42", Type_ := .DU_UE_F1_AP_ID }, { UeId := "y", Type_ := .RAN_UE_NGAP_ID }],
    DlSliceId := "1", UlSliceId := "" }

/-- A topology client whose `List` returns the given objects and no error, and
whose `Get` finds the object of that list with the given identifier. -/
def listing (objects : List Object) : Client :=
  { client := {
      List := fun _ => (objects, none),
      Get := fun id =>
        match objects.find? fun o => o.ID = id with
        | some o => (some o, none)
        | none => (none, some (.notFound "object not found")) } }

/-- The topology object with identifier `id` that holds the relation `r`. -/
def relationObject (id : ID) (r : Relation) : Object :=
  { ID := id, Obj := some (.Relation (some r)) }

/-- The "controls" relation object towards the node `tgt`. -/
def controlsRelation (id tgt : ID) : Object :=
  relationObject id { KindID := CONTROLS, SrcEntityID := "rsm", TgtEntityID := tgt }

/-- A stand-in for the topology libraries: the cell aspect of an object carries
its identifier; the node aspect has one service model per stored aspect, with
the stored bytes as its single RAN function; a descriptor unmarshals when its
first byte is 10, each further byte being one supported configuration. -/
def sampleTopo : TopoLib where
  GetAspectE2Cell := fun obj => { CellObjectID := obj.ID }
  GetAspectE2Node := fun obj =>
    { ServiceModels := obj.Aspects.map fun a =>
        (a.1, some { RanFunctions := [some { TypeUrl := a.1, Value := a.2 }] }) }
  UnmarshalRSMRanFunction := fun bytes =>
    match bytes with
    | 10 :: rest =>
      .ok { RicSlicingNodeCapabilityList :=
              [{ SupportedConfig := rest.map fun b => { SlicingConfigType := (b : Int) } }] }
    | _ => .error (.marshal "proto: cannot parse invalid wire-format data")

/-- The entity object with identifier `id` and kind `kind`. -/
def entityObject (id kind : ID) : Object :=
  { ID := id, Obj := some (.Entity (some { KindID := kind })) }

/-- A node with three service models: one RSM descriptor with the supported
configurations 1 and 2, one descriptor that does not unmarshal, one RSM
descriptor with the supported configuration 3. -/
def sampleNode : Object :=
  { ID := "e2:1", Obj := some (.Entity (some { KindID := "e2node" })),
    Aspects := [("rsm", [10, 1, 2]), ("kpm", [99, 7]), ("rsm2", [10, 3])] }

/-- The sample libraries with a `proto.Marshal` that fails on every control
header. -/
def failingLib : Lib :=
  { sampleLib with
    MarshalHeader := fun _ => .error (.marshal "proto: marshal failed") }

/-- The sample libraries with a `proto.Marshal` that fails on every control
message, and succeeds on the headers. -/
def payloadFailingLib : Lib :=
  { sampleLib with
    MarshalMessage := fun _ => .error (.marshal "proto: marshal failed") }

/-- The encoder call that `CreateSlice` makes for `sampleCreate`. -/
def sampleCall : EncoderCall :=
  { cmdType := .SLICE_CREATE,
    sliceConfig := some {
      SliceId := some { Value := 5 },
      SliceConfigParameters := some { SchedulerType := .ROUND_ROBIN, Weight := some 20 },
      SliceType := .DL_SLICE },
    sliceAssoc := none }

/-- The sample association request with the uplink slice 3. -/
def sampleAssociateUl : SetUeSliceAssociationRequest :=
  { sampleAssociate with UlSliceId := "3" }

/-- The update request with the fields of `sampleCreate`. -/
def sampleUpdateSame : UpdateSliceRequest :=
  { E2NodeId := "node-1", SliceId := "5", SchedulerType := .ROUND_ROBIN,
    SliceType := .DL_SLICE, Weight := "20" }

/-- An association request whose first `DU_UE_F1_AP_ID` entry does not parse
and whose second does. -/
def sampleAssociateBad : SetUeSliceAssociationRequest :=
  { E2NodeId := "node-1",
    UeId := [{ UeId := "seven", Type_ := .DU_UE_F1_AP_ID },
             { UeId := "42", Type_ := .DU_UE_F1_AP_ID }],
    DlSliceId := "1", UlSliceId := "" }

/-! ## Lemmas on integers and `Atoi` -/

theorem int64_of_range (n : Int) (h1 : -2 ^ 63 ≤ n) (h2 : n < 2 ^ 63) : int64 n = n := by
  unfold int64
  omega

theorem int32_of_range (n : Int) (h1 : -2 ^ 31 ≤ n) (h2 : n < 2 ^ 31) : int32 n = n := by
  unfold int32
  omega

theorem parseSigned_range (neg : Bool) (digits : List Char) (n : Int)
    (h : parseSigned neg digits = .ok n) : -2 ^ 63 ≤ n ∧ n < 2 ^ 63 := by
  unfold parseSigned at h
  split at h
  · cases h
  · split at h
    · cases h
    · cases h
    · rename_i un _
      split at h
      · cases h
      · split at h
        · cases h
        · injection h with h
          subst h
          cases neg <;> simp_all <;> omega

theorem Atoi_ok_parseSigned (s : String) (n : Int) (h : Atoi s = .ok n) :
    parseSigned (splitSign s.data).1 (splitSign s.data).2 = .ok n := by
  unfold Atoi at h
  split at h
  · rename_i m hm
    injection h with h
    subst h
    exact hm
  · cases h

theorem Atoi_range (s : String) (n : Int) (h : Atoi s = .ok n) :
    -2 ^ 63 ≤ n ∧ n < 2 ^ 63 :=
  parseSigned_range _ _ _ (Atoi_ok_parseSigned s n h)

theorem parseUintLoop_ok (cs : List Char) (acc n : Nat) (h : parseUintLoop cs acc = .ok n) :
    (cs.all fun c => decide ('0' ≤ c ∧ c ≤ '9')) = true ∧
      n = cs.foldl (fun m c => m * 10 + (c.toNat - '0'.toNat)) acc := by
  induction cs generalizing acc with
  | nil =>
    simp only [parseUintLoop] at h
    injection h with h
    subst h
    exact ⟨rfl, rfl⟩
  | cons c cs ih =>
    unfold parseUintLoop at h
    split at h
    · cases h
    · rename_i hc
      split at h
      · cases h
      · simp only at h
        split at h
        · cases h
        · obtain ⟨h1, h2⟩ := ih _ h
          refine ⟨?_, ?_⟩
          · rw [List.all_cons, h1, Bool.and_true]
            exact decide_eq_true (not_not.mp hc)
          · rw [List.foldl_cons]
            exact h2

theorem parseSigned_ok (neg : Bool) (digits : List Char) (n : Int)
    (h : parseSigned neg digits = .ok n) :
    isDecimalDigits digits = true ∧
      n = if neg then - (decimalValue digits : Int) else (decimalValue digits : Int) := by
  unfold parseSigned at h
  split at h
  · cases h
  · rename_i hne
    split at h
    · cases h
    · cases h
    · rename_i un hun
      obtain ⟨h1, h2⟩ := parseUintLoop_ok digits 0 un hun
      split at h
      · cases h
      · split at h
        · cases h
        · injection h with h
          subst h
          refine ⟨?_, ?_⟩
          · unfold isDecimalDigits
            rw [h1, Bool.and_true]
            cases digits with
            | nil => exact absurd rfl hne
            | cons c cs => rfl
          · unfold decimalValue
            rw [← h2]

/-- What `Atoi` accepts is a valid base-10 integer, and the value it returns is
the integer that the text denotes. -/
theorem Atoi_ok_denoted (s : String) (n : Int) (h : Atoi s = .ok n) :
    isBase10Integer s = true ∧ n = denotedInteger s :=
  parseSigned_ok _ _ n (Atoi_ok_parseSigned s n h)

/-- A text that is not a valid base-10 integer is rejected by `Atoi`. -/
theorem Atoi_error_of_not_base10 (s : String) (h : isBase10Integer s = false) :
    ∃ e, Atoi s = .error e := by
  rcases hs : Atoi s with e | n
  · exact ⟨e, rfl⟩
  · have := (Atoi_ok_denoted s n hs).1
    rw [h] at this
    cases this

theorem int64_Atoi (s : String) (n : Int) (h : Atoi s = .ok n) : int64 n = n :=
  int64_of_range n (Atoi_range s n h).1 (Atoi_range s n h).2

/-! ## The command encoder -/

/-- C1: for the command `EVENT_TRIGGERS` and for every unrecognized command
value, whatever the libraries, the slice configuration and the slice
association are, `CreateControlPayload` returns the empty payload together
with the `nil` error: the error it builds stays in a variable of the case
block. -/
theorem CreateControlPayload_unsupported_nil_error :
    (∀ (L : Lib) (cfg : Option SliceConfig) (assoc : Option SliceAssociate),
      CreateControlPayload L .EVENT_TRIGGERS cfg assoc = ([], none)) ∧
    (∀ (L : Lib) (v : Int) (cfg : Option SliceConfig) (assoc : Option SliceAssociate),
      CreateControlPayload L (.unrecognized v) cfg assoc = ([], none)) :=
  ⟨fun _ _ _ => rfl, fun _ _ _ _ => rfl⟩

/-- C2: for every command type, supported or not, `CreateControlRequest`
returns an error only when marshalling the header fails; otherwise it returns
a control message and the `nil` error, the payload being whatever
`CreateControlPayload` returned.  With the sample libraries the commands
`EVENT_TRIGGERS` and `unrecognized 9` yield a message with an empty payload and
no error. -/
theorem CreateControlRequest_ignores_payload_error :
    (∀ (L : Lib) (cmdType : E2SmRsmCommand) (cfg : Option SliceConfig)
        (assoc : Option SliceAssociate),
      CreateControlRequest L cmdType cfg assoc =
        match L.MarshalHeader (L.CreateE2SmRsmControlHeader cmdType) with
        | .error err => (none, some err)
        | .ok hdr =>
          (some { Header := hdr, Payload := (CreateControlPayload L cmdType cfg assoc).1 },
            none)) ∧
    CreateControlRequest sampleLib .EVENT_TRIGGERS none none =
      (some { Header := [8, 4], Payload := [] }, none) ∧
    CreateControlRequest sampleLib (.unrecognized 9) none none =
      (some { Header := [8, 9], Payload := [] }, none) := by
  refine ⟨?_, by decide, by decide⟩
  intro L cmdType cfg assoc
  rcases h : L.MarshalHeader (L.CreateE2SmRsmControlHeader cmdType) with err | hdr <;>
    simp [CreateControlRequest, CreateControlHandler, h]

/-! ## The topology client -/

theorem e2NodeIDsLoop_relations (rels : List (ID × Relation)) (acc : List ID) :
    e2NodeIDsLoop (rels.map fun p => relationObject p.1 p.2) acc =
      .done (acc ++ rels.map fun p => p.2.TgtEntityID) := by
  induction rels generalizing acc with
  | nil => simp [e2NodeIDsLoop]
  | cons p rest ih =>
    have step : e2NodeIDsLoop (relationObject p.1 p.2 ::
        rest.map fun p => relationObject p.1 p.2) acc =
        e2NodeIDsLoop (rest.map fun p => relationObject p.1 p.2)
          (acc ++ [p.2.TgtEntityID]) := rfl
    rw [List.map_cons, step, ih]
    simp

/-- C4: when the list call succeeds and returns `n` relation objects,
`E2NodeIDs` returns `n` empty identifiers followed by the `n` target entity
identifiers, a sequence of length `2 * n`; for the single relation towards
`e2:1` the result is the two identifiers `""` and `"e2:1"`. -/
theorem E2NodeIDs_leading_empty_ids :
    (∀ rels : List (ID × Relation),
      E2NodeIDs (listing (rels.map fun p => relationObject p.1 p.2)) =
        .done (List.replicate rels.length "" ++ rels.map (fun p => p.2.TgtEntityID), none)) ∧
    E2NodeIDs (listing [controlsRelation "r1" "e2:1"]) = .done (["", "e2:1"], none) := by
  refine ⟨?_, by decide⟩
  intro rels
  simp only [E2NodeIDs, listing, List.length_map]
  rw [e2NodeIDsLoop_relations]

/-! ## Request validation -/

theorem CreateSlice_SliceId_rejected (L : Lib) (s : Server) (request : CreateSliceRequest)
    (e : NumError) (h : Atoi request.SliceId = .error e) :
    (CreateSlice L s request).status =
      .returned (some { Ack := some {
        Success := false,
        Cause := "failed to convert slice id to int - " ++ (Error.numError e).text L } }) none ∧
    ∀ w : String, CreateSlice L s { request with Weight := w } = CreateSlice L s request := by
  constructor
  · simp only [CreateSlice, h]
  · intro w
    simp only [CreateSlice, h]

/-- C5: when the `SliceId` text of a `CreateSlice` request is not a valid
base-10 integer, `strconv.Atoi` rejects it with some error `e`, the handler
returns the acknowledgment with `Success = false` and the cause
`"failed to convert slice id to int - "` followed by the text of `e`, and the
whole run is the same whatever the `Weight` text is. -/
theorem CreateSlice_bad_slice_id (L : Lib) (s : Server) (request : CreateSliceRequest)
    (h : isBase10Integer request.SliceId = false) :
    ∃ e : NumError, Atoi request.SliceId = .error e ∧
      (CreateSlice L s request).status =
        .returned (some { Ack := some {
          Success := false,
          Cause := "failed to convert slice id to int - " ++ (Error.numError e).text L } })
          none ∧
      ∀ w : String, CreateSlice L s { request with Weight := w } = CreateSlice L s request := by
  obtain ⟨e, he⟩ := Atoi_error_of_not_base10 request.SliceId h
  exact ⟨e, he, CreateSlice_SliceId_rejected L s request e he⟩

/-- C5 (witness): the request with `SliceId = "abc"` and `Weight = "10"`. -/
theorem CreateSlice_bad_slice_id_witness :
    isBase10Integer "abc" = false ∧
    ∃ e : NumError, Atoi "abc" = .error e ∧
      (CreateSlice sampleLib sampleServer
          { sampleCreate with SliceId := "abc", Weight := "10" }).status =
        .returned (some { Ack := some {
          Success := false,
          Cause := "failed to convert slice id to int - " ++ (Error.numError e).text sampleLib } })
          none ∧
      ∀ w : String,
        CreateSlice sampleLib sampleServer
            { { sampleCreate with SliceId := "abc", Weight := "10" } with Weight := w } =
          CreateSlice sampleLib sampleServer
            { sampleCreate with SliceId := "abc", Weight := "10" } :=
  ⟨by decide,
    CreateSlice_bad_slice_id sampleLib sampleServer
      { sampleCreate with SliceId := "abc", Weight := "10" } (by decide)⟩

theorem scanUeId_no_du (L : Lib) (ueIds : List UeId) (reqUeId : Int) (hasValidUeId : Bool)
    (h : ∀ u ∈ ueIds, u.Type_ ≠ Rsmapi.UeIdType.DU_UE_F1_AP_ID) :
    scanUeId L ueIds reqUeId hasValidUeId = .ok (reqUeId, hasValidUeId) := by
  induction ueIds with
  | nil => rfl
  | cons u rest ih =>
    have hu : u.Type_ ≠ Rsmapi.UeIdType.DU_UE_F1_AP_ID := h u (List.mem_cons_self _ _)
    simp only [scanUeId, hu, if_false]
    exact ih fun x hx => h x (List.mem_cons_of_mem _ hx)

theorem parseUlSliceId_ok (UlSliceId : String)
    (h : UlSliceId = "" ∨ ∃ ul, Atoi UlSliceId = .ok ul) :
    ∃ p, parseUlSliceId UlSliceId = .ok p := by
  unfold parseUlSliceId
  rcases h with h | ⟨ul, h⟩
  · subst h
    exact ⟨_, rfl⟩
  · rw [h]
    split <;> exact ⟨_, rfl⟩

/-- C6: when the `DlSliceId` text of a `SetUeSliceAssociation` request parses,
the `UlSliceId` text is empty or parses, and no entry of the UE-identifier list
has the kind `DU_UE_F1_AP_ID`, the handler returns the acknowledgment with
`Success = false` and the cause `"need du-ue-f1ap-id"`. -/
theorem SetUeSliceAssociation_need_du_ue_f1ap_id (L : Lib) (s : Server)
    (request : SetUeSliceAssociationRequest) (dl : Int)
    (hdl : Atoi request.DlSliceId = .ok dl)
    (hul : request.UlSliceId = "" ∨ ∃ ul, Atoi request.UlSliceId = .ok ul)
    (hno : ∀ u ∈ request.UeId, u.Type_ ≠ Rsmapi.UeIdType.DU_UE_F1_AP_ID) :
    (SetUeSliceAssociation L s request).status =
      .returned (some { Ack := some { Success := false, Cause := "need du-ue-f1ap-id" } })
        none := by
  obtain ⟨⟨hasUl, ul⟩, hp⟩ := parseUlSliceId_ok request.UlSliceId hul
  simp [SetUeSliceAssociation, hdl, hp, scanUeId_no_du L request.UeId 0 false hno]

/-- C6 (witness): a request whose only UE identifier has the kind
`CU_UE_F1_AP_ID`. -/
theorem SetUeSliceAssociation_need_du_ue_f1ap_id_witness :
    (SetUeSliceAssociation sampleLib sampleServer
      { E2NodeId := "node-1", UeId := [{ UeId := "7", Type_ := .CU_UE_F1_AP_ID }],
        DlSliceId := "1", UlSliceId := "" }).status =
      .returned (some { Ack := some { Success := false, Cause := "need du-ue-f1ap-id" } })
        none :=
  SetUeSliceAssociation_need_du_ue_f1ap_id sampleLib sampleServer
    { E2NodeId := "node-1", UeId := [{ UeId := "7", Type_ := .CU_UE_F1_AP_ID }],
      DlSliceId := "1", UlSliceId := "" } 1 (by decide) (Or.inl rfl) (by decide)

theorem scanUeId_append (L : Lib) (pre rest : List UeId) (r r1 : Int) (b b1 : Bool)
    (h : scanUeId L pre r b = .ok (r1, b1)) :
    scanUeId L (pre ++ rest) r b = scanUeId L rest r1 b1 := by
  induction pre generalizing r b with
  | nil =>
    simp only [scanUeId] at h
    injection h with h
    injection h with h1 h2
    subst h1
    subst h2
    rfl
  | cons u pre ih =>
    simp only [scanUeId, List.cons_append] at h ⊢
    split
    · rename_i hu
      rw [if_pos hu] at h
      split
      · rename_i err he
        rw [he] at h
        cases h
      · rename_i id hid
        rw [hid] at h
        exact ih _ _ h
    · rename_i hu
      rw [if_neg hu] at h
      exact ih _ _ h

theorem scanUeId_parsable (L : Lib) (ueIds : List UeId) (r : Int) (b : Bool)
    (h : ∀ u ∈ ueIds, u.Type_ = Rsmapi.UeIdType.DU_UE_F1_AP_ID → ∃ n, Atoi u.UeId = .ok n) :
    ∃ r1 b1, scanUeId L ueIds r b = .ok (r1, b1) := by
  induction ueIds generalizing r b with
  | nil => exact ⟨r, b, rfl⟩
  | cons u rest ih =>
    have hrest : ∀ x ∈ rest, x.Type_ = Rsmapi.UeIdType.DU_UE_F1_AP_ID →
        ∃ n, Atoi x.UeId = .ok n := fun x hx => h x (List.mem_cons_of_mem _ hx)
    by_cases hu : u.Type_ = Rsmapi.UeIdType.DU_UE_F1_AP_ID
    · obtain ⟨n, hn⟩ := h u (List.mem_cons_self _ _) hu
      simp only [scanUeId, hu, if_true, hn]
      exact ih _ _ hrest
    · simp only [scanUeId, hu, if_false]
      exact ih _ _ hrest

theorem scanUeId_last_du (L : Lib) (pre post : List UeId) (u : UeId) (v : Int)
    (hu : u.Type_ = Rsmapi.UeIdType.DU_UE_F1_AP_ID) (hv : Atoi u.UeId = .ok v)
    (hpost : ∀ x ∈ post, x.Type_ ≠ Rsmapi.UeIdType.DU_UE_F1_AP_ID)
    (hpre : ∀ x ∈ pre, x.Type_ = Rsmapi.UeIdType.DU_UE_F1_AP_ID → ∃ n, Atoi x.UeId = .ok n) :
    scanUeId L (pre ++ u :: post) 0 false = .ok (v, true) := by
  obtain ⟨r1, b1, h1⟩ := scanUeId_parsable L pre 0 false hpre
  rw [scanUeId_append L pre (u :: post) 0 r1 false b1 h1]
  simp only [scanUeId, hu, if_true, hv]
  rw [scanUeId_no_du L post _ _ hpost, int64_Atoi _ _ hv]

theorem CreateControlRequest_header_ok (L : Lib) (cmdType : E2SmRsmCommand)
    (cfg : Option SliceConfig) (assoc : Option SliceAssociate)
    (h : (CreateControlHandler L cmdType).2 = none) :
    CreateControlRequest L cmdType cfg assoc =
      (some { Header := (CreateControlHandler L cmdType).1,
              Payload := (CreateControlPayload L cmdType cfg assoc).1 }, none) := by
  unfold CreateControlRequest
  rcases hh : CreateControlHandler L cmdType with ⟨hdr, e⟩
  rw [hh] at h
  simp only at h
  subst h
  rfl

theorem scanUeId_has_du (L : Lib) (ueIds : List UeId) (r : Int) (b : Bool)
    (h : ∀ u ∈ ueIds, u.Type_ = Rsmapi.UeIdType.DU_UE_F1_AP_ID → ∃ n, Atoi u.UeId = .ok n)
    (hb : b = true ∨ ∃ u ∈ ueIds, u.Type_ = Rsmapi.UeIdType.DU_UE_F1_AP_ID) :
    ∃ r1, scanUeId L ueIds r b = .ok (r1, true) := by
  induction ueIds generalizing r b with
  | nil =>
    rcases hb with hb | ⟨u, hu, _⟩
    · subst hb
      exact ⟨r, rfl⟩
    · cases hu
  | cons u rest ih =>
    have hrest : ∀ x ∈ rest, x.Type_ = Rsmapi.UeIdType.DU_UE_F1_AP_ID →
        ∃ n, Atoi x.UeId = .ok n := fun x hx => h x (List.mem_cons_of_mem _ hx)
    by_cases hu : u.Type_ = Rsmapi.UeIdType.DU_UE_F1_AP_ID
    · obtain ⟨n, hn⟩ := h u (List.mem_cons_self _ _) hu
      simp only [scanUeId, hu, if_true, hn]
      exact ih _ _ hrest (Or.inl rfl)
    · simp only [scanUeId, hu, if_false]
      refine ih _ _ hrest ?_
      rcases hb with hb | ⟨x, hx, hxdu⟩
      · exact Or.inl hb
      · rcases List.mem_cons.mp hx with hxu | hxr
        · subst hxu
          exact absurd hxdu hu
        · exact Or.inr ⟨x, hxr, hxdu⟩

/-! ## Dispatch to a node that is not registered -/

/-- C3 (amended): when the registry of the server has no entry for the
`E2NodeId` of a request that is valid otherwise (its numeric texts parse, a
`DU_UE_F1_AP_ID` entry is present where one is needed, the control header is
built without error), none of `CreateSlice`, `UpdateSlice`, `DeleteSlice` and
`SetUeSliceAssociation` returns: the handler stays in the send on the `nil`
channel, and the registry is as it was. -/
theorem handlers_block_on_unregistered_node (L : Lib) (s : Server) :
    (∀ (request : CreateSliceRequest) (id w : Int),
      Atoi request.SliceId = .ok id → Atoi request.Weight = .ok w →
      (CreateControlHandler L .SLICE_CREATE).2 = none →
      s.ctrlReqChs.get request.E2NodeId = none →
      (CreateSlice L s request).status = .blockedOnNilChan ∧
        (CreateSlice L s request).ctrlReqChs = s.ctrlReqChs) ∧
    (∀ (request : UpdateSliceRequest) (id w : Int),
      Atoi request.SliceId = .ok id → Atoi request.Weight = .ok w →
      (CreateControlHandler L .SLICE_UPDATE).2 = none →
      s.ctrlReqChs.get request.E2NodeId = none →
      (UpdateSlice L s request).status = .blockedOnNilChan ∧
        (UpdateSlice L s request).ctrlReqChs = s.ctrlReqChs) ∧
    (∀ (request : DeleteSliceRequest) (id : Int),
      Atoi request.SliceId = .ok id →
      (CreateControlHandler L .SLICE_DELETE).2 = none →
      s.ctrlReqChs.get request.E2NodeId = none →
      (DeleteSlice L s request).status = .blockedOnNilChan ∧
        (DeleteSlice L s request).ctrlReqChs = s.ctrlReqChs) ∧
    (∀ (request : SetUeSliceAssociationRequest) (dl : Int),
      Atoi request.DlSliceId = .ok dl →
      (request.UlSliceId = "" ∨ ∃ ul, Atoi request.UlSliceId = .ok ul) →
      (∃ u ∈ request.UeId, u.Type_ = Rsmapi.UeIdType.DU_UE_F1_AP_ID) →
      (∀ u ∈ request.UeId, u.Type_ = Rsmapi.UeIdType.DU_UE_F1_AP_ID →
        ∃ n, Atoi u.UeId = .ok n) →
      (CreateControlHandler L .UE_ASSOCIATE).2 = none →
      s.ctrlReqChs.get request.E2NodeId = none →
      (SetUeSliceAssociation L s request).status = .blockedOnNilChan ∧
        (SetUeSliceAssociation L s request).ctrlReqChs = s.ctrlReqChs) := by
  refine ⟨?_, ?_, ?_, ?_⟩
  · intro request id w hid hw hh hnode
    simp only [CreateSlice, hid, hw, CreateControlRequest_header_ok L _ _ _ hh, send, hnode]
    exact ⟨trivial, trivial⟩
  · intro request id w hid hw hh hnode
    simp only [UpdateSlice, hid, hw, CreateControlRequest_header_ok L _ _ _ hh, send, hnode]
    exact ⟨trivial, trivial⟩
  · intro request id hid hh hnode
    simp only [DeleteSlice, hid, CreateControlRequest_header_ok L _ _ _ hh, send, hnode]
    exact ⟨trivial, trivial⟩
  · intro request dl hdl hul hex hall hh hnode
    obtain ⟨⟨hasUl, ul⟩, hp⟩ := parseUlSliceId_ok request.UlSliceId hul
    obtain ⟨r1, hscan⟩ := scanUeId_has_du L request.UeId 0 false hall (Or.inr hex)
    simp only [SetUeSliceAssociation, hdl, hp, hscan,
      CreateControlRequest_header_ok L _ _ _ hh, send, hnode]
    split
    · rename_i h
      exact absurd trivial h
    · exact ⟨rfl, rfl⟩

/-- C3 (witness): the request of the end-to-end scenario on a server whose
registry is empty. -/
theorem handlers_block_on_unregistered_node_witness :
    ((CreateSlice sampleLib emptyServer sampleCreate).status = .blockedOnNilChan ∧
      (CreateSlice sampleLib emptyServer sampleCreate).ctrlReqChs = emptyServer.ctrlReqChs) ∧
    ((UpdateSlice sampleLib emptyServer sampleUpdate).status = .blockedOnNilChan ∧
      (UpdateSlice sampleLib emptyServer sampleUpdate).ctrlReqChs = emptyServer.ctrlReqChs) ∧
    ((DeleteSlice sampleLib emptyServer sampleDelete).status = .blockedOnNilChan ∧
      (DeleteSlice sampleLib emptyServer sampleDelete).ctrlReqChs = emptyServer.ctrlReqChs) ∧
    ((SetUeSliceAssociation sampleLib emptyServer sampleAssociate).status = .blockedOnNilChan ∧
      (SetUeSliceAssociation sampleLib emptyServer sampleAssociate).ctrlReqChs =
        emptyServer.ctrlReqChs) :=
  ⟨(handlers_block_on_unregistered_node sampleLib emptyServer).1 sampleCreate 5 20
      (by decide) (by decide) (by decide) (by decide),
    (handlers_block_on_unregistered_node sampleLib emptyServer).2.1 sampleUpdate 5 30
      (by decide) (by decide) (by decide) (by decide),
    (handlers_block_on_unregistered_node sampleLib emptyServer).2.2.1 sampleDelete 5
      (by decide) (by decide) (by decide),
    (handlers_block_on_unregistered_node sampleLib emptyServer).2.2.2 sampleAssociate 1
      (by decide) (Or.inl rfl)
      ⟨{ UeId := "42", Type_ := .DU_UE_F1_AP_ID }, by decide, rfl⟩
      (by
        intro u hu hdu
        simp only [sampleAssociate, List.mem_cons, List.mem_singleton, List.not_mem_nil,
          or_false] at hu
        rcases hu with rfl | rfl | rfl | rfl
        · cases hdu
        · exact ⟨7, by decide⟩
        · exact ⟨42, by decide⟩
        · cases hdu)
      (by decide) (by decide)⟩

/-- C3 (counterexample): the request of the end-to-end scenario is valid and
its node `node-1` has no entry in the empty registry; `CreateSlice` does not
return on it, with a negative acknowledgment or otherwise: it stays in the send
on the `nil` channel. -/
theorem unregistered_node_counterexample :
    Atoi sampleCreate.SliceId = .ok 5 ∧ Atoi sampleCreate.Weight = .ok 20 ∧
    emptyServer.ctrlReqChs.get sampleCreate.E2NodeId = none ∧
    (CreateSlice sampleLib emptyServer sampleCreate).status = .blockedOnNilChan ∧
    ¬ ∃ resp err, (CreateSlice sampleLib emptyServer sampleCreate).status =
        .returned resp err := by
  refine ⟨by decide, by decide, by decide, by decide, ?_⟩
  rintro ⟨resp, err, h⟩
  have hb : (CreateSlice sampleLib emptyServer sampleCreate).status = .blockedOnNilChan := by
    decide
  rw [hb] at h
  cases h

/-- C7 (amended): when `strconv.Atoi` accepts the `SliceId` text as `id` and the
`Weight` text as `w`, these are the integers the two texts denote, and
`CreateSlice` and `UpdateSlice` call the encoder once, with a slice
configuration whose slice id is `id` and whose weight is `int32 w`, the value
of `w` wrapped to 32 bits; the weight is `w` itself when `w` lies in the signed
32-bit range. -/
theorem slice_config_weight_int32 (L : Lib) (s : Server) (id w : Int) :
    (∀ request : CreateSliceRequest,
      Atoi request.SliceId = .ok id → Atoi request.Weight = .ok w →
      id = denotedInteger request.SliceId ∧ w = denotedInteger request.Weight ∧
      (CreateSlice L s request).encoderCalls =
        [{ cmdType := .SLICE_CREATE,
           sliceConfig := some {
             SliceId := some { Value := id },
             SliceConfigParameters := some {
               SchedulerType := sliceSchedulerType request.SchedulerType,
               Weight := some (int32 w) },
             SliceType := sliceType request.SliceType },
           sliceAssoc := none }]) ∧
    (∀ request : UpdateSliceRequest,
      Atoi request.SliceId = .ok id → Atoi request.Weight = .ok w →
      id = denotedInteger request.SliceId ∧ w = denotedInteger request.Weight ∧
      (UpdateSlice L s request).encoderCalls =
        [{ cmdType := .SLICE_UPDATE,
           sliceConfig := some {
             SliceId := some { Value := id },
             SliceConfigParameters := some {
               SchedulerType := sliceSchedulerType request.SchedulerType,
               Weight := some (int32 w) },
             SliceType := sliceType request.SliceType },
           sliceAssoc := none }]) ∧
    (-2 ^ 31 ≤ w → w < 2 ^ 31 → int32 w = w) := by
  refine ⟨?_, ?_, int32_of_range w⟩
  · intro request hid hw
    refine ⟨(Atoi_ok_denoted _ _ hid).2, (Atoi_ok_denoted _ _ hw).2, ?_⟩
    simp only [CreateSlice, hid, hw, int64_Atoi _ _ hid]
    split
    · rfl
    · split <;> rfl
  · intro request hid hw
    refine ⟨(Atoi_ok_denoted _ _ hid).2, (Atoi_ok_denoted _ _ hw).2, ?_⟩
    simp only [UpdateSlice, hid, hw, int64_Atoi _ _ hid]
    split
    · rfl
    · split <;> rfl

/-- C7 (witness): the request of the end-to-end scenario, slice id `"5"` and
weight `"20"`. -/
theorem slice_config_weight_int32_witness :
    Atoi sampleCreate.SliceId = .ok 5 ∧ Atoi sampleCreate.Weight = .ok 20 ∧
    (5 = denotedInteger sampleCreate.SliceId ∧ 20 = denotedInteger sampleCreate.Weight ∧
      (CreateSlice sampleLib sampleServer sampleCreate).encoderCalls =
        [{ cmdType := .SLICE_CREATE,
           sliceConfig := some {
             SliceId := some { Value := 5 },
             SliceConfigParameters := some {
               SchedulerType := sliceSchedulerType sampleCreate.SchedulerType,
               Weight := some (int32 20) },
             SliceType := sliceType sampleCreate.SliceType },
           sliceAssoc := none }]) ∧
    int32 20 = 20 :=
  ⟨by decide, by decide,
    (slice_config_weight_int32 sampleLib sampleServer 5 20).1 sampleCreate
      (by decide) (by decide),
    (slice_config_weight_int32 sampleLib sampleServer 5 20).2.2 (by decide) (by decide)⟩

/-- C7 (counterexample): `strconv.Atoi` accepts the weight text `"2147483648"`
as 2147483648, and `CreateSlice` hands the encoder a slice configuration whose
weight is -2147483648. -/
theorem weight_outside_int32_counterexample :
    Atoi "2147483648" = .ok 2147483648 ∧
    (CreateSlice sampleLib sampleServer { sampleCreate with Weight := "2147483648" }).encoderCalls =
      [{ cmdType := .SLICE_CREATE,
         sliceConfig := some {
           SliceId := some { Value := 5 },
           SliceConfigParameters := some {
             SchedulerType := .ROUND_ROBIN,
             Weight := some (-2147483648) },
           SliceType := .DL_SLICE },
         sliceAssoc := none }] ∧
    (-2147483648 : Int) ≠ 2147483648 := by
  decide

/-- C8: the two enum mappings send each named value to the internal value of
the same name, every unrecognized scheduler type to `ROUND_ROBIN` and every
unrecognized slice type to `DL_SLICE`; a `CreateSlice`, `UpdateSlice` or
`DeleteSlice` request with an unrecognized value runs exactly as the same
request with `ROUND_ROBIN`, respectively `DL_SLICE`, in its place. -/
theorem enum_default_policy :
    sliceSchedulerType .ROUND_ROBIN = .ROUND_ROBIN ∧
    sliceSchedulerType .PROPORTIONALLY_FAIR = .PROPORTIONALLY_FAIR ∧
    sliceSchedulerType .QOS_BASED = .QOS_BASED ∧
    (∀ v, sliceSchedulerType (.unrecognized v) = .ROUND_ROBIN) ∧
    sliceType .DL_SLICE = .DL_SLICE ∧
    sliceType .UL_SLICE = .UL_SLICE ∧
    (∀ v, sliceType (.unrecognized v) = .DL_SLICE) ∧
    (∀ (L : Lib) (s : Server) (request : CreateSliceRequest) (v : Int),
      CreateSlice L s { request with SchedulerType := .unrecognized v } =
        CreateSlice L s { request with SchedulerType := .ROUND_ROBIN }) ∧
    (∀ (L : Lib) (s : Server) (request : CreateSliceRequest) (v : Int),
      CreateSlice L s { request with SliceType := .unrecognized v } =
        CreateSlice L s { request with SliceType := .DL_SLICE }) ∧
    (∀ (L : Lib) (s : Server) (request : UpdateSliceRequest) (v : Int),
      UpdateSlice L s { request with SchedulerType := .unrecognized v } =
        UpdateSlice L s { request with SchedulerType := .ROUND_ROBIN }) ∧
    (∀ (L : Lib) (s : Server) (request : UpdateSliceRequest) (v : Int),
      UpdateSlice L s { request with SliceType := .unrecognized v } =
        UpdateSlice L s { request with SliceType := .DL_SLICE }) ∧
    (∀ (L : Lib) (s : Server) (request : DeleteSliceRequest) (v : Int),
      DeleteSlice L s { request with SliceType := .unrecognized v } =
        DeleteSlice L s { request with SliceType := .DL_SLICE }) :=
  ⟨rfl, rfl, rfl, fun _ => rfl, rfl, rfl, fun _ => rfl,
    fun _ _ _ _ => rfl, fun _ _ _ _ => rfl, fun _ _ _ _ => rfl, fun _ _ _ _ => rfl,
    fun _ _ _ _ => rfl⟩

/-- C9: when the slice id texts of a `SetUeSliceAssociation` request parse and
the UE-identifier list is `pre ++ u :: post`, where `u` has the kind
`DU_UE_F1_AP_ID` and an id that parses as `v`, no entry of `post` has that
kind, and every entry of `pre` of that kind has an id that parses, the handler
calls the encoder once, with a slice association whose UE identity is the
`DuUeF1ApId` of value `v`. -/
theorem SetUeSliceAssociation_last_du_ue_id (L : Lib) (s : Server)
    (request : SetUeSliceAssociationRequest) (dl v : Int) (pre post : List UeId) (u : UeId)
    (hdl : Atoi request.DlSliceId = .ok dl)
    (hul : request.UlSliceId = "" ∨ ∃ ul, Atoi request.UlSliceId = .ok ul)
    (hsplit : request.UeId = pre ++ u :: post)
    (hu : u.Type_ = Rsmapi.UeIdType.DU_UE_F1_AP_ID) (hv : Atoi u.UeId = .ok v)
    (hpost : ∀ x ∈ post, x.Type_ ≠ Rsmapi.UeIdType.DU_UE_F1_AP_ID)
    (hpre : ∀ x ∈ pre, x.Type_ = Rsmapi.UeIdType.DU_UE_F1_AP_ID →
      ∃ n, Atoi x.UeId = .ok n) :
    ∃ assoc : SliceAssociate,
      (SetUeSliceAssociation L s request).encoderCalls =
        [{ cmdType := .UE_ASSOCIATE, sliceConfig := none, sliceAssoc := some assoc }] ∧
      assoc.UeId = some (.DuUeF1ApId { Value := v }) := by
  obtain ⟨⟨hasUl, ul⟩, hp⟩ := parseUlSliceId_ok request.UlSliceId hul
  have hscan := scanUeId_last_du L pre post u v hu hv hpost hpre
  rw [← hsplit] at hscan
  refine ⟨{ DownLinkSliceId := some { Value := int64 dl },
            UplinkSliceId := if hasUl then some { Value := int64 ul } else none,
            UeId := some (.DuUeF1ApId { Value := v }),
            BearerId := [.DrbId (.FourGdrbId { Value := int32 1, Qci := some { Value := int32 1 } })] },
    ?_, rfl⟩
  simp only [SetUeSliceAssociation, hdl, hp, hscan]
  split
  · rename_i h
    exact absurd trivial h
  · split
    · rfl
    · split <;> rfl

/-- C9 (witness): of the identifiers `x` (CU), `7` (DU), `42` (DU), `y` (RAN)
the UE identity is 42. -/
theorem SetUeSliceAssociation_last_du_ue_id_witness :
    ∃ assoc : SliceAssociate,
      (SetUeSliceAssociation sampleLib sampleServer sampleAssociate).encoderCalls =
        [{ cmdType := .UE_ASSOCIATE, sliceConfig := none, sliceAssoc := some assoc }] ∧
      assoc.UeId = some (.DuUeF1ApId { Value := 42 }) :=
  SetUeSliceAssociation_last_du_ue_id sampleLib sampleServer sampleAssociate 1 42
    [{ UeId := "x", Type_ := .CU_UE_F1_AP_ID }, { UeId := "7", Type_ := .DU_UE_F1_AP_ID }]
    [{ UeId := "y", Type_ := .RAN_UE_NGAP_ID }]
    { UeId := "42", Type_ := .DU_UE_F1_AP_ID }
    (by decide) (Or.inl rfl) rfl rfl (by decide) (by decide)
    (by
      intro x hx hdu
      simp only [List.mem_cons, List.mem_singleton, List.not_mem_nil, or_false] at hx
      rcases hx with rfl | rfl
      · cases hdu
      · exact ⟨7, by decide⟩)

/-- C10: for the command `SLICE_DELETE`, two slice configurations with the same
slice id and the same slice type give the same result of
`CreateControlPayload`, whatever their scheduler types and weights and
whatever the slice associations passed along are. -/
theorem CreateControlPayload_delete_minimal (L : Lib) (c1 c2 : Option SliceConfig)
    (a1 a2 : Option SliceAssociate)
    (hid : SliceConfig.GetSliceIdValue c1 = SliceConfig.GetSliceIdValue c2)
    (hty : SliceConfig.GetSliceType c1 = SliceConfig.GetSliceType c2) :
    CreateControlPayload L .SLICE_DELETE c1 a1 = CreateControlPayload L .SLICE_DELETE c2 a2 := by
  simp only [CreateControlPayload, hid, hty]

/-- C10 (witness): two configurations of slice 5, uplink, with different
scheduler types and weights, and different slice associations. -/
theorem CreateControlPayload_delete_minimal_witness :
    CreateControlPayload sampleLib .SLICE_DELETE
        (some { SliceId := some { Value := 5 },
                SliceConfigParameters := some { SchedulerType := .ROUND_ROBIN, Weight := some 20 },
                SliceType := .UL_SLICE }) none =
      CreateControlPayload sampleLib .SLICE_DELETE
        (some { SliceId := some { Value := 5 },
                SliceConfigParameters := some { SchedulerType := .QOS_BASED, Weight := some 99 },
                SliceType := .UL_SLICE })
        (some { DownLinkSliceId := none, UplinkSliceId := none, UeId := none, BearerId := [] }) :=
  CreateControlPayload_delete_minimal sampleLib _ _ _ _ rfl rfl

/-! ## Dispatch to a registered node -/

theorem Registry.get_set_self (m : Registry) (id : String) (c ch : Chan)
    (h : m.get id = some c) : (m.set id ch).get id = some ch := by
  induction m with
  | nil => cases h
  | cons p rest ih =>
    obtain ⟨k, c0⟩ := p
    unfold Registry.get at h ih ⊢
    by_cases hk : k = id
    · subst hk
      simp [Registry.set, List.lookup]
    · have hne : (id == k) = false := by
        rw [beq_eq_false_iff_ne]
        exact fun e => hk e.symm
      simp only [Registry.set, if_neg hk, List.lookup, hne] at h ⊢
      exact ih h

theorem Registry.get_set_other (m : Registry) (id other : String) (ch : Chan)
    (h : other ≠ id) : (m.set id ch).get other = m.get other := by
  induction m with
  | nil => rfl
  | cons p rest ih =>
    obtain ⟨k, c0⟩ := p
    unfold Registry.get at ih ⊢
    by_cases hk : k = id
    · subst hk
      have hne : (other == k) = false := by
        rw [beq_eq_false_iff_ne]
        exact h
      simp [Registry.set, List.lookup, hne]
    · simp only [Registry.set, if_neg hk, List.lookup]
      cases other == k
      · exact ih
      · rfl

theorem send_available (chs : Registry) (id : String) (msg : Option ControlMessage) (ch : Chan)
    (h : chs.get id = some ch) (hroom : 0 < ch.room) :
    send chs id msg =
      .sent (chs.set id { queue := ch.queue ++ [msg], room := ch.room - 1 }) := by
  unfold send
  rw [h]
  simp only
  rw [if_neg (by omega)]

/-- C11: when a `CreateSlice`, `UpdateSlice`, `DeleteSlice` or
`SetUeSliceAssociation` request is valid (its numeric texts parse, a
`DU_UE_F1_AP_ID` entry is present where one is needed, the control header is
built without error) and the registry holds for its `E2NodeId` a channel with
room, the handler makes one encoder call, appends the message of that call to
the queue of that channel, leaves the channel of every other node unchanged,
and returns the acknowledgment with `Success = true`. -/
theorem handlers_deliver_to_registered_node (L : Lib) (s : Server) (ch : Chan)
    (hroom : 0 < ch.room) :
    (∀ (request : CreateSliceRequest) (id w : Int),
      Atoi request.SliceId = .ok id → Atoi request.Weight = .ok w →
      (CreateControlHandler L .SLICE_CREATE).2 = none →
      s.ctrlReqChs.get request.E2NodeId = some ch →
      (CreateSlice L s request).delivered L CreateSliceResponse.Ack s request.E2NodeId ch) ∧
    (∀ (request : UpdateSliceRequest) (id w : Int),
      Atoi request.SliceId = .ok id → Atoi request.Weight = .ok w →
      (CreateControlHandler L .SLICE_UPDATE).2 = none →
      s.ctrlReqChs.get request.E2NodeId = some ch →
      (UpdateSlice L s request).delivered L UpdateSliceResponse.Ack s request.E2NodeId ch) ∧
    (∀ (request : DeleteSliceRequest) (id : Int),
      Atoi request.SliceId = .ok id →
      (CreateControlHandler L .SLICE_DELETE).2 = none →
      s.ctrlReqChs.get request.E2NodeId = some ch →
      (DeleteSlice L s request).delivered L DeleteSliceResponse.Ack s request.E2NodeId ch) ∧
    (∀ (request : SetUeSliceAssociationRequest) (dl : Int),
      Atoi request.DlSliceId = .ok dl →
      (request.UlSliceId = "" ∨ ∃ ul, Atoi request.UlSliceId = .ok ul) →
      (∃ u ∈ request.UeId, u.Type_ = Rsmapi.UeIdType.DU_UE_F1_AP_ID) →
      (∀ u ∈ request.UeId, u.Type_ = Rsmapi.UeIdType.DU_UE_F1_AP_ID →
        ∃ n, Atoi u.UeId = .ok n) →
      (CreateControlHandler L .UE_ASSOCIATE).2 = none →
      s.ctrlReqChs.get request.E2NodeId = some ch →
      (SetUeSliceAssociation L s request).delivered L SetUeSliceAssociationResponse.Ack s
        request.E2NodeId ch) := by
  refine ⟨?_, ?_, ?_, ?_⟩
  · intro request id w hid hw hh hnode
    simp only [CreateSlice, hid, hw, CreateControlRequest_header_ok L _ _ _ hh,
      send_available _ _ _ ch hnode hroom]
    exact ⟨_, rfl, ⟨_, rfl, rfl⟩,
      by simp only [CreateControlRequest_header_ok L _ _ _ hh]
         exact Registry.get_set_self _ _ _ _ hnode,
      fun other ho => Registry.get_set_other _ _ _ _ ho⟩
  · intro request id w hid hw hh hnode
    simp only [UpdateSlice, hid, hw, CreateControlRequest_header_ok L _ _ _ hh,
      send_available _ _ _ ch hnode hroom]
    exact ⟨_, rfl, ⟨_, rfl, rfl⟩,
      by simp only [CreateControlRequest_header_ok L _ _ _ hh]
         exact Registry.get_set_self _ _ _ _ hnode,
      fun other ho => Registry.get_set_other _ _ _ _ ho⟩
  · intro request id hid hh hnode
    simp only [DeleteSlice, hid, CreateControlRequest_header_ok L _ _ _ hh,
      send_available _ _ _ ch hnode hroom]
    exact ⟨_, rfl, ⟨_, rfl, rfl⟩,
      by simp only [CreateControlRequest_header_ok L _ _ _ hh]
         exact Registry.get_set_self _ _ _ _ hnode,
      fun other ho => Registry.get_set_other _ _ _ _ ho⟩
  · intro request dl hdl hul hex hall hh hnode
    obtain ⟨⟨hasUl, ul⟩, hp⟩ := parseUlSliceId_ok request.UlSliceId hul
    obtain ⟨r1, hscan⟩ := scanUeId_has_du L request.UeId 0 false hall (Or.inr hex)
    simp only [SetUeSliceAssociation, hdl, hp, hscan,
      CreateControlRequest_header_ok L _ _ _ hh, send_available _ _ _ ch hnode hroom]
    split
    · rename_i h
      exact absurd trivial h
    · exact ⟨_, rfl, ⟨_, rfl, rfl⟩,
        by simp only [CreateControlRequest_header_ok L _ _ _ hh]
           exact Registry.get_set_self _ _ _ _ hnode,
        fun other ho => Registry.get_set_other _ _ _ _ ho⟩

/-- C11 (witness): the four sample requests on the server whose registry holds
a channel with room for `node-1`; after `CreateSlice` the queue of that channel
holds the one encoded message. -/
theorem handlers_deliver_to_registered_node_witness :
    (CreateSlice sampleLib sampleServer sampleCreate).delivered sampleLib
        CreateSliceResponse.Ack sampleServer "node-1" { queue := [], room := 1 } ∧
    (UpdateSlice sampleLib sampleServer sampleUpdate).delivered sampleLib
        UpdateSliceResponse.Ack sampleServer "node-1" { queue := [], room := 1 } ∧
    (DeleteSlice sampleLib sampleServer sampleDelete).delivered sampleLib
        DeleteSliceResponse.Ack sampleServer "node-1" { queue := [], room := 1 } ∧
    (SetUeSliceAssociation sampleLib sampleServer sampleAssociate).delivered sampleLib
        SetUeSliceAssociationResponse.Ack sampleServer "node-1" { queue := [], room := 1 } ∧
    (CreateSlice sampleLib sampleServer sampleCreate).ctrlReqChs =
      [("node-1", { queue := [some { Header := [8, 0], Payload := [1, 5, 20] }], room := 0 })] :=
  ⟨(handlers_deliver_to_registered_node sampleLib sampleServer { queue := [], room := 1 }
      (by decide)).1 sampleCreate 5 20 (by decide) (by decide) (by decide) (by decide),
    (handlers_deliver_to_registered_node sampleLib sampleServer { queue := [], room := 1 }
      (by decide)).2.1 sampleUpdate 5 30 (by decide) (by decide) (by decide) (by decide),
    (handlers_deliver_to_registered_node sampleLib sampleServer { queue := [], room := 1 }
      (by decide)).2.2.1 sampleDelete 5 (by decide) (by decide) (by decide),
    (handlers_deliver_to_registered_node sampleLib sampleServer { queue := [], room := 1 }
      (by decide)).2.2.2 sampleAssociate 1 (by decide) (Or.inl rfl)
      ⟨{ UeId := "42", Type_ := .DU_UE_F1_AP_ID }, by decide, rfl⟩
      (by
        intro u hu hdu
        simp only [sampleAssociate, List.mem_cons, List.mem_singleton, List.not_mem_nil,
          or_false] at hu
        rcases hu with rfl | rfl | rfl | rfl
        · cases hdu
        · exact ⟨7, by decide⟩
        · exact ⟨42, by decide⟩
        · cases hdu)
      (by decide) (by decide),
    by decide⟩

/-! ## Cells and slicing capabilities -/

theorem getKindID_eq_E2CELL_iff (obj : Object) :
    Entity.GetKindID obj.GetEntity = E2CELL ↔ isE2CellEntity obj = true := by
  unfold Object.GetEntity isE2CellEntity
  rcases obj.Obj with _ | (e | r | k)
  · simp [Entity.GetKindID, E2CELL]
  · cases e <;> simp [Entity.GetKindID, E2CELL]
  · simp [Entity.GetKindID, E2CELL]
  · simp [Entity.GetKindID, E2CELL]

theorem getCellsLoop_eq (T : TopoLib) (objects : List Object) (cells : List E2Cell) :
    getCellsLoop T objects cells =
      cells ++ (objects.filter isE2CellEntity).map T.GetAspectE2Cell := by
  induction objects generalizing cells with
  | nil => simp [getCellsLoop]
  | cons obj rest ih =>
    unfold getCellsLoop
    by_cases h : Entity.GetKindID obj.GetEntity = E2CELL
    · have h2 := (getKindID_eq_E2CELL_iff obj).mp h
      simp only [h, if_true, ih, List.filter_cons, h2, List.map_cons, List.append_assoc,
        List.singleton_append]
    · have h2 : isE2CellEntity obj = false := by
        cases hb : isE2CellEntity obj
        · rfl
        · exact absurd ((getKindID_eq_E2CELL_iff obj).mpr hb) h
      simp only [h, if_false, ih, List.filter_cons, h2]
      rfl

/-- C12: when the list call succeeds with `objects`, `GetCells` returns the
`NotFound` error, and no cells, exactly when none of the objects is an entity
of the kind `E2CELL`; otherwise it returns no error and the cell aspects of the
`E2CELL` entities, one each, in the order of the listing, a sequence that is
not empty. -/
theorem GetCells_not_found_iff (T : TopoLib) (c : Client) (nodeID : ID) (objects : List Object)
    (hlist : c.client.List (getCellsFilter nodeID) = (objects, none)) :
    ((∀ obj ∈ objects, isE2CellEntity obj = false) →
      GetCells T c nodeID =
        ([], some (.notFound ("there is no cell to subscribe for e2 node " ++ nodeID)))) ∧
    ((∃ obj ∈ objects, isE2CellEntity obj = true) →
      GetCells T c nodeID =
        ((objects.filter isE2CellEntity).map T.GetAspectE2Cell, none) ∧
      (GetCells T c nodeID).1 ≠ [] ∧
      (GetCells T c nodeID).1.length = (objects.filter isE2CellEntity).length) ∧
    ((GetCells T c nodeID).2 ≠ none ↔ ∀ obj ∈ objects, isE2CellEntity obj = false) := by
  have hnone : (∀ obj ∈ objects, isE2CellEntity obj = false) →
      GetCells T c nodeID =
        ([], some (.notFound ("there is no cell to subscribe for e2 node " ++ nodeID))) := by
    intro h
    have hf : objects.filter isE2CellEntity = [] := by
      rw [List.filter_eq_nil_iff]
      intro a ha
      rw [h a ha]
      exact Bool.false_ne_true
    simp [GetCells, hlist, getCellsLoop_eq, hf]
  have hsome : (∃ obj ∈ objects, isE2CellEntity obj = true) →
      GetCells T c nodeID =
        ((objects.filter isE2CellEntity).map T.GetAspectE2Cell, none) := by
    rintro ⟨obj, hobj, hcell⟩
    have hmem : obj ∈ objects.filter isE2CellEntity := List.mem_filter.mpr ⟨hobj, hcell⟩
    have hne : (objects.filter isE2CellEntity).length ≠ 0 := by
      intro h0
      rw [List.length_eq_zero] at h0
      rw [h0] at hmem
      cases hmem
    simp [GetCells, hlist, getCellsLoop_eq, hne]
  refine ⟨hnone, ?_, ?_⟩
  · intro h
    obtain ⟨obj, hobj, hcell⟩ := h
    have hmem : obj ∈ objects.filter isE2CellEntity := List.mem_filter.mpr ⟨hobj, hcell⟩
    rw [hsome ⟨obj, hobj, hcell⟩]
    refine ⟨rfl, ?_, by simp⟩
    intro h0
    simp only [List.map_eq_nil_iff] at h0
    rw [h0] at hmem
    cases hmem
  · constructor
    · intro herr obj hobj
      cases hb : isE2CellEntity obj
      · rfl
      · rw [hsome ⟨obj, hobj, hb⟩] at herr
        exact absurd rfl herr
    · intro h
      rw [hnone h]
      simp

/-- C12 (witness): a listing with two `E2CELL` entities among four objects
yields their two cells in order; a listing without one yields `NotFound`. -/
theorem GetCells_not_found_iff_witness :
    GetCells sampleTopo
        (listing [entityObject "cell-1" E2CELL, controlsRelation "r1" "e2:1",
          entityObject "e2:1" "e2node", entityObject "cell-2" E2CELL]) "e2:1" =
      ([{ CellObjectID := "cell-1" }, { CellObjectID := "cell-2" }], none) ∧
    GetCells sampleTopo (listing [entityObject "e2:1" "e2node"]) "e2:1" =
      ([], some (.notFound "there is no cell to subscribe for e2 node e2:1")) :=
  ⟨((GetCells_not_found_iff sampleTopo
      (listing [entityObject "cell-1" E2CELL, controlsRelation "r1" "e2:1",
        entityObject "e2:1" "e2node", entityObject "cell-2" E2CELL]) "e2:1" _ rfl).2.1
      ⟨entityObject "cell-1" E2CELL, by decide, by decide⟩).1,
    (GetCells_not_found_iff sampleTopo (listing [entityObject "e2:1" "e2node"]) "e2:1" _ rfl).1
      (by decide)⟩

theorem foldl_append_singleton {α : Type} (l acc : List α) :
    l.foldl (fun result cfg => result ++ [cfg]) acc = acc ++ l := by
  induction l generalizing acc with
  | nil => simp
  | cons a l ih => simp [ih]

theorem capabilityLoop_eq (caps : List RSMNodeSlicingCapabilityItem)
    (result : List RSMSupportedSlicingConfigItem) :
    capabilityLoop caps result = result ++ caps.flatMap fun cap => cap.SupportedConfig := by
  induction caps generalizing result with
  | nil => simp [capabilityLoop]
  | cons cap rest ih =>
    simp [capabilityLoop, ih, foldl_append_singleton]

theorem ranFunctionLoop_eq (T : TopoLib) (ranFuncs : List (Option Any))
    (result : List RSMSupportedSlicingConfigItem) :
    ranFunctionLoop T ranFuncs result =
      result ++ ranFuncs.flatMap fun ranFunc =>
        match T.UnmarshalRSMRanFunction (Any.GetValue ranFunc) with
        | .error _ => []
        | .ok rsmRanFunc =>
          rsmRanFunc.RicSlicingNodeCapabilityList.flatMap fun cap => cap.SupportedConfig := by
  induction ranFuncs generalizing result with
  | nil => simp [ranFunctionLoop]
  | cons ranFunc rest ih =>
    unfold ranFunctionLoop
    rw [List.flatMap_cons]
    cases T.UnmarshalRSMRanFunction (Any.GetValue ranFunc) with
    | error e => simp [ih]
    | ok r => simp [ih, capabilityLoop_eq]

theorem serviceModelLoop_eq (T : TopoLib)
    (serviceModels : List (String × Option ServiceModelInfo))
    (result : List RSMSupportedSlicingConfigItem) :
    serviceModelLoop T serviceModels result =
      result ++ supportedConfigItems T serviceModels := by
  induction serviceModels generalizing result with
  | nil => simp [serviceModelLoop, supportedConfigItems]
  | cons entry rest ih =>
    obtain ⟨smName, sm⟩ := entry
    simp only [serviceModelLoop, ih, ranFunctionLoop_eq]
    simp [supportedConfigItems]

/-- C15: when `GetE2NodeAspects` returns the node `e2Node` without error,
`GetSupportedSlicingConfigTypes` returns without error the supported-config
items of the capability lists of those RAN functions whose descriptor
unmarshals, service model by service model in the order the map is visited; a
RAN function whose descriptor does not unmarshal adds nothing and the scan
goes on; visiting the service models in another order gives the same items up
to their order. -/
theorem GetSupportedSlicingConfigTypes_skips_malformed (T : TopoLib) (c : Client) (nodeID : ID)
    (e2Node : Option E2Node) (h : GetE2NodeAspects T c nodeID = .done (e2Node, none)) :
    GetSupportedSlicingConfigTypes T c nodeID =
      .done (supportedConfigItems T (E2Node.GetServiceModels e2Node), none) ∧
    (∀ (ranFunc : Option Any) (rest : List (Option Any))
        (result : List RSMSupportedSlicingConfigItem) (err : Error),
      T.UnmarshalRSMRanFunction (Any.GetValue ranFunc) = .error err →
      ranFunctionLoop T (ranFunc :: rest) result = ranFunctionLoop T rest result) ∧
    (∀ visited : List (String × Option ServiceModelInfo),
      visited.Perm (E2Node.GetServiceModels e2Node) →
      (supportedConfigItems T visited).Perm
        (supportedConfigItems T (E2Node.GetServiceModels e2Node))) := by
  refine ⟨?_, ?_, ?_⟩
  · simp only [GetSupportedSlicingConfigTypes, h, serviceModelLoop_eq, List.nil_append]
  · intro ranFunc rest result err herr
    simp only [ranFunctionLoop, herr]
  · intro visited hperm
    exact List.Perm.flatMap_right _ hperm

/-- C15 (witness): the sample node, whose second descriptor does not unmarshal,
yields the supported configurations 1, 2 and 3. -/
theorem GetSupportedSlicingConfigTypes_skips_malformed_witness :
    GetE2NodeAspects sampleTopo (listing [sampleNode]) "e2:1" =
      .done (some (sampleTopo.GetAspectE2Node sampleNode), none) ∧
    sampleTopo.UnmarshalRSMRanFunction [99, 7] =
      .error (.marshal "proto: cannot parse invalid wire-format data") ∧
    supportedConfigItems sampleTopo
        (E2Node.GetServiceModels (some (sampleTopo.GetAspectE2Node sampleNode))) =
      [{ SlicingConfigType := 1 }, { SlicingConfigType := 2 }, { SlicingConfigType := 3 }] ∧
    GetSupportedSlicingConfigTypes sampleTopo (listing [sampleNode]) "e2:1" =
      .done (supportedConfigItems sampleTopo
        (E2Node.GetServiceModels (some (sampleTopo.GetAspectE2Node sampleNode))), none) :=
  ⟨by decide, by decide, by decide,
    (GetSupportedSlicingConfigTypes_skips_malformed sampleTopo (listing [sampleNode]) "e2:1"
      (some (sampleTopo.GetAspectE2Node sampleNode)) (by decide)).1⟩

/-! ## The handlers are the pipeline -/

theorem CreateSlice_eq_dispatch (L : Lib) (s : Server) (request : CreateSliceRequest) :
    CreateSlice L s request =
      dispatch L CreateSliceResponse.mk s request.E2NodeId
        (validateSlice L CreateSliceResponse.mk .SLICE_CREATE request.SliceId request.Weight
          request.SchedulerType request.SliceType) := by
  unfold CreateSlice validateSlice
  rcases Atoi request.SliceId with e | id
  · rfl
  · rcases Atoi request.Weight with e | w <;> rfl

theorem UpdateSlice_eq_dispatch (L : Lib) (s : Server) (request : UpdateSliceRequest) :
    UpdateSlice L s request =
      dispatch L UpdateSliceResponse.mk s request.E2NodeId
        (validateSlice L UpdateSliceResponse.mk .SLICE_UPDATE request.SliceId request.Weight
          request.SchedulerType request.SliceType) := by
  unfold UpdateSlice validateSlice
  rcases Atoi request.SliceId with e | id
  · rfl
  · rcases Atoi request.Weight with e | w <;> rfl

theorem DeleteSlice_eq_dispatch (L : Lib) (s : Server) (request : DeleteSliceRequest) :
    DeleteSlice L s request =
      dispatch L DeleteSliceResponse.mk s request.E2NodeId (validateDelete L request) := by
  unfold DeleteSlice validateDelete
  rcases Atoi request.SliceId with e | id <;> rfl

theorem SetUeSliceAssociation_eq_dispatch (L : Lib) (s : Server)
    (request : SetUeSliceAssociationRequest) :
    SetUeSliceAssociation L s request =
      dispatch L SetUeSliceAssociationResponse.mk s request.E2NodeId
        (validateAssociate L request) := by
  unfold SetUeSliceAssociation validateAssociate
  rcases Atoi request.DlSliceId with e | dl
  · rfl
  · rcases parseUlSliceId request.UlSliceId with e | ⟨hasUl, ul⟩
    · rfl
    · rcases scanUeId L request.UeId 0 false with resp | ⟨reqUeId, hasValidUeId⟩
      · rfl
      · cases hasValidUeId <;> rfl

theorem cause_ne_empty (p t : String) (hp : 0 < p.length) : p ++ t ≠ "" := by
  intro h
  have h2 := congrArg String.length h
  rw [String.length_append] at h2
  have h3 : ("" : String).length = 0 := rfl
  omega

theorem dispatch_returnsInBand {ρ : Type} (L : Lib) (mk : Option Ack → ρ)
    (ackOf : ρ → Option Ack) (hmk : ∀ a, ackOf (mk a) = a) (s : Server) (node : String)
    (v : Except ρ EncoderCall) (hv : ∀ resp, v = .error resp → ∃ a, ackOf resp = some a) :
    (dispatch L mk s node v).returnsInBand ackOf := by
  intro resp err h
  unfold dispatch at h
  split at h
  · rename_i r
    obtain ⟨a, ha⟩ := hv r rfl
    injection h with h1 h2
    exact ⟨h2.symm, r, a, h1.symm, ha⟩
  · split at h
    · injection h with h1 h2
      exact ⟨h2.symm, _, _, h1.symm, hmk _⟩
    · split at h
      · cases h
      · cases h
      · injection h with h1 h2
        exact ⟨h2.symm, _, _, h1.symm, hmk _⟩

theorem dispatch_error {ρ : Type} (L : Lib) (mk : Option Ack → ρ) (s : Server) (node : String)
    (resp : ρ) :
    dispatch L mk s node (.error resp) =
      { encoderCalls := [], ctrlReqChs := s.ctrlReqChs,
        status := .returned (some resp) none } := rfl

theorem dispatch_encoderCalls {ρ : Type} (L : Lib) (mk : Option Ack → ρ) (s : Server)
    (node : String) (call : EncoderCall) :
    (dispatch L mk s node (.ok call)).encoderCalls = [call] := by
  unfold dispatch
  simp only
  split
  · rfl
  · split <;> rfl

theorem dispatch_encoderReturnedError {ρ : Type} (L : Lib) (mk : Option Ack → ρ)
    (ackOf : ρ → Option Ack) (hmk : ∀ a, ackOf (mk a) = a) (s : Server) (node : String)
    (v : Except ρ EncoderCall) (h : (dispatch L mk s node v).encoderReturnedError L) :
    (dispatch L mk s node v).nacked ackOf ∧
      (dispatch L mk s node v).ctrlReqChs = s.ctrlReqChs := by
  obtain ⟨call, hmem, hfail⟩ := h
  rcases v with resp | call0
  · rw [dispatch_error] at hmem
    cases hmem
  · rw [dispatch_encoderCalls] at hmem
    rw [List.mem_singleton] at hmem
    subst hmem
    rcases hreq : CreateControlRequest L call.cmdType call.sliceConfig call.sliceAssoc with
      ⟨msg, _ | err⟩
    · rw [hreq] at hfail
      exact absurd rfl hfail
    · unfold dispatch
      simp only [hreq]
      exact ⟨⟨_, ⟨_, rfl, hmk _⟩, cause_ne_empty _ _ (by decide)⟩, trivial⟩

theorem dispatch_nack_unchanged {ρ : Type} (L : Lib) (mk : Option Ack → ρ)
    (ackOf : ρ → Option Ack) (hmk : ∀ a, ackOf (mk a) = a) (s : Server) (node : String)
    (v : Except ρ EncoderCall) (cause : String)
    (h : (dispatch L mk s node v).returnedAck ackOf { Success := false, Cause := cause }) :
    (dispatch L mk s node v).ctrlReqChs = s.ctrlReqChs := by
  obtain ⟨resp, hst, hack⟩ := h
  unfold dispatch at hst ⊢
  split
  · rfl
  · split
    · rfl
    · split
      · rfl
      · rfl
      · rename_i hv _ _ hreq _ _ hsend
        simp only [hreq, hsend] at hst
        injection hst with h1 h2
        injection h1 with h1
        subst h1
        rw [hmk] at hack
        injection hack with hack
        injection hack with hs hc
        cases hs

theorem validateSlice_error {ρ : Type} (L : Lib) (mk : Option Ack → ρ) (cmdType : E2SmRsmCommand)
    (SliceId Weight : String) (st : Rsmapi.SchedulerType) (ty : Rsmapi.SliceType) (resp : ρ)
    (h : validateSlice L mk cmdType SliceId Weight st ty = .error resp) :
    ∃ cause, resp = mk (some { Success := false, Cause := cause }) ∧ cause ≠ "" := by
  unfold validateSlice at h
  split at h
  · injection h with h
    exact ⟨_, h.symm, cause_ne_empty _ _ (by decide)⟩
  · split at h
    · injection h with h
      exact ⟨_, h.symm, cause_ne_empty _ _ (by decide)⟩
    · cases h

theorem validateSlice_error_iff {ρ : Type} (L : Lib) (mk : Option Ack → ρ)
    (cmdType : E2SmRsmCommand) (SliceId Weight : String) (st : Rsmapi.SchedulerType)
    (ty : Rsmapi.SliceType) :
    (∃ resp, validateSlice L mk cmdType SliceId Weight st ty = .error resp) ↔
      ((∃ e, Atoi SliceId = .error e) ∨ ∃ e, Atoi Weight = .error e) := by
  unfold validateSlice
  rcases Atoi SliceId with e | id
  · simp
  · rcases Atoi Weight with e | w <;> simp

theorem validateDelete_error (L : Lib) (request : DeleteSliceRequest)
    (resp : DeleteSliceResponse) (h : validateDelete L request = .error resp) :
    ∃ cause, resp = { Ack := some { Success := false, Cause := cause } } ∧ cause ≠ "" := by
  unfold validateDelete at h
  split at h
  · injection h with h
    exact ⟨_, h.symm, cause_ne_empty _ _ (by decide)⟩
  · cases h

theorem validateDelete_error_iff (L : Lib) (request : DeleteSliceRequest) :
    (∃ resp, validateDelete L request = .error resp) ↔ ∃ e, Atoi request.SliceId = .error e := by
  unfold validateDelete
  rcases Atoi request.SliceId with e | id <;> simp

theorem need_ne_convert_ue_id (t : String) :
    "need du-ue-f1ap-id" ≠ "failed to convert ue id to int - " ++ t := by
  intro h
  have h2 := congrArg (fun s => s.data.take 1) h
  simp only [String.data_append] at h2
  rw [List.take_append_of_le_length (by decide)] at h2
  revert h2
  decide

theorem create_message_ne_convert_ue_id (x t : String) :
    "failed to create the control message - " ++ x ≠
      "failed to convert ue id to int - " ++ t := by
  intro h
  have h2 := congrArg (fun s => s.data.take 12) h
  simp only [String.data_append] at h2
  rw [List.take_append_of_le_length (by decide),
    List.take_append_of_le_length (by decide)] at h2
  revert h2
  decide

theorem scanUeId_error_form (L : Lib) (ueIds : List UeId) (r : Int) (b : Bool)
    (resp : SetUeSliceAssociationResponse) (h : scanUeId L ueIds r b = .error resp) :
    ∃ u ∈ ueIds, u.Type_ = Rsmapi.UeIdType.DU_UE_F1_AP_ID ∧
      ∃ e, Atoi u.UeId = .error e ∧
        resp = { Ack := some {
          Success := false,
          Cause := "failed to convert ue id to int - " ++ (Error.numError e).text L } } := by
  induction ueIds generalizing r b with
  | nil => cases h
  | cons u rest ih =>
    unfold scanUeId at h
    split at h
    · rename_i hu
      split at h
      · rename_i err herr
        injection h with h
        exact ⟨u, List.mem_cons_self _ _, hu, err, herr, h.symm⟩
      · obtain ⟨x, hx, hrest⟩ := ih _ _ h
        exact ⟨x, List.mem_cons_of_mem _ hx, hrest⟩
    · obtain ⟨x, hx, hrest⟩ := ih _ _ h
      exact ⟨x, List.mem_cons_of_mem _ hx, hrest⟩

theorem scanUeId_error_of (L : Lib) (ueIds : List UeId) (r : Int) (b : Bool)
    (h : ∃ u ∈ ueIds, u.Type_ = Rsmapi.UeIdType.DU_UE_F1_AP_ID ∧ ∃ e, Atoi u.UeId = .error e) :
    ∃ resp, scanUeId L ueIds r b = .error resp := by
  induction ueIds generalizing r b with
  | nil =>
    obtain ⟨u, hu, _⟩ := h
    cases hu
  | cons x rest ih =>
    obtain ⟨u, hu, hdu, e, he⟩ := h
    unfold scanUeId
    by_cases hx : x.Type_ = Rsmapi.UeIdType.DU_UE_F1_AP_ID
    · rw [if_pos hx]
      rcases hax : Atoi x.UeId with ex | n
      · exact ⟨_, rfl⟩
      · simp only
        rcases List.mem_cons.mp hu with hux | hur
        · subst hux
          rw [he] at hax
          cases hax
        · exact ih _ _ ⟨u, hur, hdu, e, he⟩
    · rw [if_neg hx]
      rcases List.mem_cons.mp hu with hux | hur
      · subst hux
        exact absurd hdu hx
      · exact ih _ _ ⟨u, hur, hdu, e, he⟩

theorem parseUlSliceId_error (UlSliceId : String) (e : NumError) (hne : UlSliceId ≠ "")
    (h : Atoi UlSliceId = .error e) : parseUlSliceId UlSliceId = .error e := by
  unfold parseUlSliceId
  rw [if_pos hne, h]

theorem parseUlSliceId_value (UlSliceId : String) (hasUl : Bool) (ul : Int)
    (h : parseUlSliceId UlSliceId = .ok (hasUl, ul)) :
    (UlSliceId = "" ∧ hasUl = false) ∨
      (UlSliceId ≠ "" ∧ hasUl = true ∧ Atoi UlSliceId = .ok ul) := by
  unfold parseUlSliceId at h
  split at h
  · rename_i hne
    split at h
    · cases h
    · rename_i n hn
      injection h with h
      injection h with h1 h2
      subst h1
      subst h2
      exact Or.inr ⟨hne, rfl, hn⟩
  · rename_i he
    injection h with h
    injection h with h1 h2
    exact Or.inl ⟨not_not.mp he, h1.symm⟩

theorem validateAssociate_error (L : Lib) (request : SetUeSliceAssociationRequest)
    (resp : SetUeSliceAssociationResponse) (h : validateAssociate L request = .error resp) :
    ∃ cause, resp = { Ack := some { Success := false, Cause := cause } } ∧ cause ≠ "" := by
  unfold validateAssociate at h
  split at h
  · injection h with h
    exact ⟨_, h.symm, cause_ne_empty _ _ (by decide)⟩
  · split at h
    · injection h with h
      exact ⟨_, h.symm, cause_ne_empty _ _ (by decide)⟩
    · split at h
      · rename_i r hscan
        injection h with h
        subst h
        obtain ⟨u, _, _, e, _, hr⟩ := scanUeId_error_form L _ _ _ _ hscan
        exact ⟨_, hr, cause_ne_empty _ _ (by decide)⟩
      · split at h
        · injection h with h
          exact ⟨_, h.symm, by decide⟩
        · cases h

theorem validateAssociate_error_of (L : Lib) (request : SetUeSliceAssociationRequest)
    (h : (∃ e, Atoi request.DlSliceId = .error e) ∨
      (request.UlSliceId ≠ "" ∧ ∃ e, Atoi request.UlSliceId = .error e) ∨
      (∃ u ∈ request.UeId, u.Type_ = Rsmapi.UeIdType.DU_UE_F1_AP_ID ∧
        ∃ e, Atoi u.UeId = .error e) ∨
      (∀ u ∈ request.UeId, u.Type_ ≠ Rsmapi.UeIdType.DU_UE_F1_AP_ID)) :
    ∃ resp, validateAssociate L request = .error resp := by
  unfold validateAssociate
  rcases hdl : Atoi request.DlSliceId with e | dl
  · exact ⟨_, rfl⟩
  · rcases hp : parseUlSliceId request.UlSliceId with e | ⟨hasUl, ul⟩
    · exact ⟨_, rfl⟩
    · rcases hscan : scanUeId L request.UeId 0 false with resp | ⟨r1, b1⟩
      · exact ⟨_, rfl⟩
      · rcases h with ⟨e, he⟩ | ⟨hne, e, he⟩ | hbad | hno
        · rw [he] at hdl
          cases hdl
        · rw [parseUlSliceId_error _ e hne he] at hp
          cases hp
        · obtain ⟨resp, hr⟩ := scanUeId_error_of L request.UeId 0 false hbad
          rw [hr] at hscan
          cases hscan
        · rw [scanUeId_no_du L request.UeId 0 false hno] at hscan
          injection hscan with hscan
          injection hscan with h1 h2
          subst h2
          exact ⟨_, rfl⟩

theorem dispatch_summary {ρ : Type} (L : Lib) (mk : Option Ack → ρ) (ackOf : ρ → Option Ack)
    (hmk : ∀ a, ackOf (mk a) = a) (s : Server) (node : String) (v : Except ρ EncoderCall)
    (hform : ∀ resp, v = .error resp →
      ∃ cause, resp = mk (some { Success := false, Cause := cause }) ∧ cause ≠ "") :
    (dispatch L mk s node v).returnsInBand ackOf ∧
    ((∃ resp, v = .error resp) →
      (dispatch L mk s node v).nacked ackOf ∧ (dispatch L mk s node v).encoderCalls = [] ∧
        (dispatch L mk s node v).ctrlReqChs = s.ctrlReqChs) ∧
    ((dispatch L mk s node v).encoderReturnedError L →
      (dispatch L mk s node v).nacked ackOf ∧
        (dispatch L mk s node v).ctrlReqChs = s.ctrlReqChs) ∧
    (∀ cause, (dispatch L mk s node v).returnedAck ackOf { Success := false, Cause := cause } →
      (dispatch L mk s node v).ctrlReqChs = s.ctrlReqChs) := by
  refine ⟨?_, ?_, dispatch_encoderReturnedError L mk ackOf hmk s node v,
    dispatch_nack_unchanged L mk ackOf hmk s node v⟩
  · apply dispatch_returnsInBand L mk ackOf hmk
    intro resp hv
    obtain ⟨cause, hr, _⟩ := hform resp hv
    exact ⟨_, by rw [hr, hmk]⟩
  · rintro ⟨resp, hv⟩
    obtain ⟨cause, hr, hc⟩ := hform resp hv
    subst hv
    rw [dispatch_error]
    exact ⟨⟨cause, ⟨resp, rfl, by rw [hr, hmk]⟩, hc⟩, rfl, rfl⟩

/-! ## Failures are reported in the acknowledgment -/

/-- What the handlers do report: every return of `GetSlices`,
`GetUeSliceAssociation`, `CreateSlice`, `UpdateSlice`, `DeleteSlice` and
`SetUeSliceAssociation` carries the `nil` error and a response whose
acknowledgment is present; the two query handlers always return a negative
acknowledgment; and whenever a numeric text of a mutating request fails to
parse, a `SetUeSliceAssociation` request has no `DU_UE_F1_AP_ID` entry, or
`CreateControlRequest` returns an error to the handler (the header did not
marshal), the handler returns the `nil` error and an acknowledgment with
`Success = false` and a cause that is not empty.  A payload that fails to
encode is not among these cases. -/
theorem handlers_report_validation_and_header_failures (L : Lib) (s : Server) :
    (∀ request : GetSlicesRequest,
      (GetSlices s request).returnsInBand GetSliceResponse.Ack ∧
      (GetSlices s request).nacked GetSliceResponse.Ack) ∧
    (∀ request : GetUeSliceAssociationRequest,
      (GetUeSliceAssociation s request).returnsInBand GetUeSliceAssociationResponse.Ack ∧
      (GetUeSliceAssociation s request).nacked GetUeSliceAssociationResponse.Ack) ∧
    (∀ request : CreateSliceRequest,
      (CreateSlice L s request).returnsInBand CreateSliceResponse.Ack ∧
      (((∃ e, Atoi request.SliceId = .error e) ∨ (∃ e, Atoi request.Weight = .error e) ∨
          (CreateSlice L s request).encoderReturnedError L) →
        (CreateSlice L s request).nacked CreateSliceResponse.Ack)) ∧
    (∀ request : UpdateSliceRequest,
      (UpdateSlice L s request).returnsInBand UpdateSliceResponse.Ack ∧
      (((∃ e, Atoi request.SliceId = .error e) ∨ (∃ e, Atoi request.Weight = .error e) ∨
          (UpdateSlice L s request).encoderReturnedError L) →
        (UpdateSlice L s request).nacked UpdateSliceResponse.Ack)) ∧
    (∀ request : DeleteSliceRequest,
      (DeleteSlice L s request).returnsInBand DeleteSliceResponse.Ack ∧
      (((∃ e, Atoi request.SliceId = .error e) ∨ (DeleteSlice L s request).encoderReturnedError L) →
        (DeleteSlice L s request).nacked DeleteSliceResponse.Ack)) ∧
    (∀ request : SetUeSliceAssociationRequest,
      (SetUeSliceAssociation L s request).returnsInBand SetUeSliceAssociationResponse.Ack ∧
      (((∃ e, Atoi request.DlSliceId = .error e) ∨
          (request.UlSliceId ≠ "" ∧ ∃ e, Atoi request.UlSliceId = .error e) ∨
          (∃ u ∈ request.UeId, u.Type_ = Rsmapi.UeIdType.DU_UE_F1_AP_ID ∧
            ∃ e, Atoi u.UeId = .error e) ∨
          (∀ u ∈ request.UeId, u.Type_ ≠ Rsmapi.UeIdType.DU_UE_F1_AP_ID) ∨
          (SetUeSliceAssociation L s request).encoderReturnedError L) →
        (SetUeSliceAssociation L s request).nacked SetUeSliceAssociationResponse.Ack)) := by
  refine ⟨?_, ?_, ?_, ?_, ?_, ?_⟩
  · intro request
    refine ⟨?_, ⟨_, ⟨_, rfl, rfl⟩, by decide⟩⟩
    intro resp err h
    injection h with h1 h2
    exact ⟨h2.symm, _, _, h1.symm, rfl⟩
  · intro request
    refine ⟨?_, ⟨_, ⟨_, rfl, rfl⟩, by decide⟩⟩
    intro resp err h
    injection h with h1 h2
    exact ⟨h2.symm, _, _, h1.symm, rfl⟩
  · intro request
    rw [CreateSlice_eq_dispatch]
    obtain ⟨h1, h2, h3, _⟩ := dispatch_summary L CreateSliceResponse.mk CreateSliceResponse.Ack
      (fun _ => rfl) s request.E2NodeId _ (validateSlice_error L CreateSliceResponse.mk
        .SLICE_CREATE request.SliceId request.Weight request.SchedulerType request.SliceType)
    refine ⟨h1, ?_⟩
    rintro (h | h | h)
    · exact (h2 ((validateSlice_error_iff _ _ _ _ _ _ _).mpr (Or.inl h))).1
    · exact (h2 ((validateSlice_error_iff _ _ _ _ _ _ _).mpr (Or.inr h))).1
    · exact (h3 h).1
  · intro request
    rw [UpdateSlice_eq_dispatch]
    obtain ⟨h1, h2, h3, _⟩ := dispatch_summary L UpdateSliceResponse.mk UpdateSliceResponse.Ack
      (fun _ => rfl) s request.E2NodeId _ (validateSlice_error L UpdateSliceResponse.mk
        .SLICE_UPDATE request.SliceId request.Weight request.SchedulerType request.SliceType)
    refine ⟨h1, ?_⟩
    rintro (h | h | h)
    · exact (h2 ((validateSlice_error_iff _ _ _ _ _ _ _).mpr (Or.inl h))).1
    · exact (h2 ((validateSlice_error_iff _ _ _ _ _ _ _).mpr (Or.inr h))).1
    · exact (h3 h).1
  · intro request
    rw [DeleteSlice_eq_dispatch]
    obtain ⟨h1, h2, h3, _⟩ := dispatch_summary L DeleteSliceResponse.mk DeleteSliceResponse.Ack
      (fun _ => rfl) s request.E2NodeId _ (validateDelete_error L request)
    refine ⟨h1, ?_⟩
    rintro (h | h)
    · exact (h2 ((validateDelete_error_iff _ _).mpr h)).1
    · exact (h3 h).1
  · intro request
    rw [SetUeSliceAssociation_eq_dispatch]
    obtain ⟨h1, h2, h3, _⟩ := dispatch_summary L SetUeSliceAssociationResponse.mk
      SetUeSliceAssociationResponse.Ack (fun _ => rfl) s request.E2NodeId _
      (validateAssociate_error L request)
    refine ⟨h1, ?_⟩
    rintro (h | h | h | h | h)
    · exact (h2 (validateAssociate_error_of L request (Or.inl h))).1
    · exact (h2 (validateAssociate_error_of L request (Or.inr (Or.inl h)))).1
    · exact (h2 (validateAssociate_error_of L request (Or.inr (Or.inr (Or.inl h))))).1
    · exact (h2 (validateAssociate_error_of L request (Or.inr (Or.inr (Or.inr h))))).1
    · exact (h3 h).1

/-- A slice id that does not parse, and a header that does not marshal, each
give a negative acknowledgment with a cause and the `nil` error. -/
theorem handlers_report_validation_and_header_failures_sample :
    (CreateSlice sampleLib sampleServer { sampleCreate with SliceId := "abc" }).nacked
      CreateSliceResponse.Ack ∧
    (CreateSlice failingLib sampleServer sampleCreate).encoderReturnedError failingLib ∧
    (CreateSlice failingLib sampleServer sampleCreate).nacked CreateSliceResponse.Ack ∧
    (CreateSlice failingLib sampleServer sampleCreate).status =
      .returned (some { Ack := some {
        Success := false,
        Cause := "failed to create the control message - proto: marshal failed" } }) none :=
  ⟨((handlers_report_validation_and_header_failures sampleLib sampleServer).2.2.1
      { sampleCreate with SliceId := "abc" }).2
      (Or.inl ⟨{ Func := "Atoi", Num := "abc", Err := .ErrSyntax }, by decide⟩),
    ⟨sampleCall, by decide, by decide⟩,
    ((handlers_report_validation_and_header_failures failingLib sampleServer).2.2.1 sampleCreate).2
      (Or.inr (Or.inr ⟨sampleCall, by decide, by decide⟩)),
    by decide⟩

/-- C13: with libraries whose `proto.Marshal` fails on the control message,
the payload of the sample requests fails to encode (`CreateControlPayload`
returns an error, an encoding failure of the run), yet `CreateSlice`,
`UpdateSlice`, `DeleteSlice` and `SetUeSliceAssociation` each return the
acknowledgment with `Success = true` and an empty cause, and `CreateSlice`
puts a message with an empty payload on the channel of the node. -/
theorem payload_encoding_failure_acknowledged :
    CreateControlPayload payloadFailingLib sampleCall.cmdType sampleCall.sliceConfig
        sampleCall.sliceAssoc =
      ([], some (.marshal "proto: marshal failed")) ∧
    (CreateSlice payloadFailingLib sampleServer sampleCreate).encodingFailed payloadFailingLib ∧
    CreateSlice payloadFailingLib sampleServer sampleCreate =
      { encoderCalls := [sampleCall],
        ctrlReqChs :=
          [("node-1", { queue := [some { Header := [8, 0], Payload := [] }], room := 0 })],
        status := .returned (some { Ack := some { Success := true, Cause := "" } }) none } ∧
    (UpdateSlice payloadFailingLib sampleServer sampleUpdate).status =
      .returned (some { Ack := some { Success := true, Cause := "" } }) none ∧
    (DeleteSlice payloadFailingLib sampleServer sampleDelete).status =
      .returned (some { Ack := some { Success := true, Cause := "" } }) none ∧
    (SetUeSliceAssociation payloadFailingLib sampleServer sampleAssociate).status =
      .returned (some { Ack := some { Success := true, Cause := "" } }) none :=
  ⟨by decide, ⟨sampleCall, by decide, Or.inr (by decide)⟩, by decide, by decide, by decide,
    by decide⟩

/-! ## Validation comes before encoding -/

/-- C14: in `CreateSlice`, `UpdateSlice`, `DeleteSlice` and
`SetUeSliceAssociation`, when a numeric text that the handler parses fails to
parse, or a `SetUeSliceAssociation` request has no `DU_UE_F1_AP_ID` entry, the
encoder is not called and the registry is unchanged; and whenever the handler
returns an acknowledgment with `Success = false`, the registry is unchanged. -/
theorem encoder_only_after_validation (L : Lib) (s : Server) :
    (∀ request : CreateSliceRequest,
      (((∃ e, Atoi request.SliceId = .error e) ∨ (∃ e, Atoi request.Weight = .error e)) →
        (CreateSlice L s request).encoderCalls = [] ∧
          (CreateSlice L s request).ctrlReqChs = s.ctrlReqChs) ∧
      (∀ cause, (CreateSlice L s request).returnedAck CreateSliceResponse.Ack
          { Success := false, Cause := cause } →
        (CreateSlice L s request).ctrlReqChs = s.ctrlReqChs)) ∧
    (∀ request : UpdateSliceRequest,
      (((∃ e, Atoi request.SliceId = .error e) ∨ (∃ e, Atoi request.Weight = .error e)) →
        (UpdateSlice L s request).encoderCalls = [] ∧
          (UpdateSlice L s request).ctrlReqChs = s.ctrlReqChs) ∧
      (∀ cause, (UpdateSlice L s request).returnedAck UpdateSliceResponse.Ack
          { Success := false, Cause := cause } →
        (UpdateSlice L s request).ctrlReqChs = s.ctrlReqChs)) ∧
    (∀ request : DeleteSliceRequest,
      ((∃ e, Atoi request.SliceId = .error e) →
        (DeleteSlice L s request).encoderCalls = [] ∧
          (DeleteSlice L s request).ctrlReqChs = s.ctrlReqChs) ∧
      (∀ cause, (DeleteSlice L s request).returnedAck DeleteSliceResponse.Ack
          { Success := false, Cause := cause } →
        (DeleteSlice L s request).ctrlReqChs = s.ctrlReqChs)) ∧
    (∀ request : SetUeSliceAssociationRequest,
      (((∃ e, Atoi request.DlSliceId = .error e) ∨
          (request.UlSliceId ≠ "" ∧ ∃ e, Atoi request.UlSliceId = .error e) ∨
          (∃ u ∈ request.UeId, u.Type_ = Rsmapi.UeIdType.DU_UE_F1_AP_ID ∧
            ∃ e, Atoi u.UeId = .error e) ∨
          (∀ u ∈ request.UeId, u.Type_ ≠ Rsmapi.UeIdType.DU_UE_F1_AP_ID)) →
        (SetUeSliceAssociation L s request).encoderCalls = [] ∧
          (SetUeSliceAssociation L s request).ctrlReqChs = s.ctrlReqChs) ∧
      (∀ cause, (SetUeSliceAssociation L s request).returnedAck
          SetUeSliceAssociationResponse.Ack { Success := false, Cause := cause } →
        (SetUeSliceAssociation L s request).ctrlReqChs = s.ctrlReqChs)) := by
  refine ⟨?_, ?_, ?_, ?_⟩
  · intro request
    rw [CreateSlice_eq_dispatch]
    obtain ⟨_, h2, _, h4⟩ := dispatch_summary L CreateSliceResponse.mk CreateSliceResponse.Ack
      (fun _ => rfl) s request.E2NodeId _ (validateSlice_error L CreateSliceResponse.mk
        .SLICE_CREATE request.SliceId request.Weight request.SchedulerType request.SliceType)
    exact ⟨fun h => (h2 ((validateSlice_error_iff _ _ _ _ _ _ _).mpr h)).2, h4⟩
  · intro request
    rw [UpdateSlice_eq_dispatch]
    obtain ⟨_, h2, _, h4⟩ := dispatch_summary L UpdateSliceResponse.mk UpdateSliceResponse.Ack
      (fun _ => rfl) s request.E2NodeId _ (validateSlice_error L UpdateSliceResponse.mk
        .SLICE_UPDATE request.SliceId request.Weight request.SchedulerType request.SliceType)
    exact ⟨fun h => (h2 ((validateSlice_error_iff _ _ _ _ _ _ _).mpr h)).2, h4⟩
  · intro request
    rw [DeleteSlice_eq_dispatch]
    obtain ⟨_, h2, _, h4⟩ := dispatch_summary L DeleteSliceResponse.mk DeleteSliceResponse.Ack
      (fun _ => rfl) s request.E2NodeId _ (validateDelete_error L request)
    exact ⟨fun h => (h2 ((validateDelete_error_iff _ _).mpr h)).2, h4⟩
  · intro request
    rw [SetUeSliceAssociation_eq_dispatch]
    obtain ⟨_, h2, _, h4⟩ := dispatch_summary L SetUeSliceAssociationResponse.mk
      SetUeSliceAssociationResponse.Ack (fun _ => rfl) s request.E2NodeId _
      (validateAssociate_error L request)
    exact ⟨fun h => (h2 (validateAssociate_error_of L request h)).2, h4⟩

/-- C14 (witness): a weight that does not parse and a UE list without a
`DU_UE_F1_AP_ID` entry leave the encoder uncalled and the registry as it
was. -/
theorem encoder_only_after_validation_witness :
    ((CreateSlice sampleLib sampleServer { sampleCreate with Weight := "heavy" }).encoderCalls =
        [] ∧
      (CreateSlice sampleLib sampleServer { sampleCreate with Weight := "heavy" }).ctrlReqChs =
        sampleServer.ctrlReqChs) ∧
    ((SetUeSliceAssociation sampleLib sampleServer
        { sampleAssociate with UeId := [{ UeId := "7", Type_ := .CU_UE_F1_AP_ID }] }).encoderCalls =
        [] ∧
      (SetUeSliceAssociation sampleLib sampleServer
        { sampleAssociate with UeId := [{ UeId := "7", Type_ := .CU_UE_F1_AP_ID }] }).ctrlReqChs =
        sampleServer.ctrlReqChs) ∧
    (CreateSlice failingLib sampleServer sampleCreate).ctrlReqChs = sampleServer.ctrlReqChs :=
  ⟨((encoder_only_after_validation sampleLib sampleServer).1
      { sampleCreate with Weight := "heavy" }).1
      (Or.inr ⟨{ Func := "Atoi", Num := "heavy", Err := .ErrSyntax }, by decide⟩),
    ((encoder_only_after_validation sampleLib sampleServer).2.2.2
      { sampleAssociate with UeId := [{ UeId := "7", Type_ := .CU_UE_F1_AP_ID }] }).1
      (Or.inr (Or.inr (Or.inr (by decide)))),
    ((encoder_only_after_validation failingLib sampleServer).1 sampleCreate).2
      "failed to create the control message - proto: marshal failed"
      ⟨{ Ack := some {
          Success := false,
          Cause := "failed to create the control message - proto: marshal failed" } },
        by decide, rfl⟩⟩

/-! ## The slice association handed to the encoder -/

theorem validateAssociate_ok (L : Lib) (request : SetUeSliceAssociationRequest) (dl ul r1 : Int)
    (hasUl : Bool) (hdl : Atoi request.DlSliceId = .ok dl)
    (hp : parseUlSliceId request.UlSliceId = .ok (hasUl, ul))
    (hscan : scanUeId L request.UeId 0 false = .ok (r1, true)) :
    validateAssociate L request =
      .ok { cmdType := .UE_ASSOCIATE,
            sliceConfig := none,
            sliceAssoc := some {
              DownLinkSliceId := some { Value := dl },
              UplinkSliceId := if hasUl then some { Value := int64 ul } else none,
              UeId := some (.DuUeF1ApId { Value := r1 }),
              BearerId := [.DrbId (.FourGdrbId { Value := 1, Qci := some { Value := 1 } })] } } := by
  have h1 : int32 1 = 1 := by decide
  simp [validateAssociate, hdl, hp, hscan, int64_Atoi _ _ hdl, h1]

/-- C16: when a `SetUeSliceAssociation` request passes validation (the
`DlSliceId` text parses as `dl`, the `UlSliceId` text is empty or parses, a
`DU_UE_F1_AP_ID` entry is present and every such entry parses), the handler
calls the encoder once with a slice association whose downlink slice id is
`dl`, the integer the text denotes, whose uplink slice id is absent exactly
when `UlSliceId` is empty and is otherwise the integer `UlSliceId` parses as,
and whose bearer identifiers are the single 4G DRB-ID 1 with QCI 1; and a
request whose `UlSliceId` is not empty and does not parse gets a negative
acknowledgment without any encoder call. -/
theorem SetUeSliceAssociation_slice_association (L : Lib) (s : Server) :
    (∀ (request : SetUeSliceAssociationRequest) (dl : Int),
      Atoi request.DlSliceId = .ok dl →
      (request.UlSliceId = "" ∨ ∃ ul, Atoi request.UlSliceId = .ok ul) →
      (∃ u ∈ request.UeId, u.Type_ = Rsmapi.UeIdType.DU_UE_F1_AP_ID) →
      (∀ u ∈ request.UeId, u.Type_ = Rsmapi.UeIdType.DU_UE_F1_AP_ID →
        ∃ n, Atoi u.UeId = .ok n) →
      ∃ assoc : SliceAssociate,
        (SetUeSliceAssociation L s request).encoderCalls =
          [{ cmdType := .UE_ASSOCIATE, sliceConfig := none, sliceAssoc := some assoc }] ∧
        dl = denotedInteger request.DlSliceId ∧
        assoc.DownLinkSliceId = some { Value := dl } ∧
        (assoc.UplinkSliceId = none ↔ request.UlSliceId = "") ∧
        (∀ ul, request.UlSliceId ≠ "" → Atoi request.UlSliceId = .ok ul →
          ul = denotedInteger request.UlSliceId ∧ assoc.UplinkSliceId = some { Value := ul }) ∧
        assoc.BearerId =
          [.DrbId (.FourGdrbId { Value := 1, Qci := some { Value := 1 } })]) ∧
    (∀ (request : SetUeSliceAssociationRequest) (e : NumError),
      request.UlSliceId ≠ "" → Atoi request.UlSliceId = .error e →
      (SetUeSliceAssociation L s request).nacked SetUeSliceAssociationResponse.Ack ∧
        (SetUeSliceAssociation L s request).encoderCalls = []) := by
  constructor
  · intro request dl hdl hul hex hall
    obtain ⟨⟨hasUl, ul⟩, hp⟩ := parseUlSliceId_ok request.UlSliceId hul
    obtain ⟨r1, hscan⟩ := scanUeId_has_du L request.UeId 0 false hall (Or.inr hex)
    rw [SetUeSliceAssociation_eq_dispatch,
      validateAssociate_ok L request dl ul r1 hasUl hdl hp hscan, dispatch_encoderCalls]
    refine ⟨_, rfl, (Atoi_ok_denoted _ _ hdl).2, rfl, ?_, ?_, rfl⟩
    · rcases parseUlSliceId_value _ _ _ hp with ⟨he, hf⟩ | ⟨hne, ht, _⟩
      · subst hf
        simp [he]
      · subst ht
        simp [hne]
    · intro ul2 hne hul2
      rcases parseUlSliceId_value _ _ _ hp with ⟨he, _⟩ | ⟨_, ht, hok⟩
      · exact absurd he hne
      · subst ht
        rw [hul2] at hok
        injection hok with hok
        subst hok
        exact ⟨(Atoi_ok_denoted _ _ hul2).2, by simp [int64_Atoi _ _ hul2]⟩
  · intro request e hne he
    rw [SetUeSliceAssociation_eq_dispatch]
    obtain ⟨_, h2, _, _⟩ := dispatch_summary L SetUeSliceAssociationResponse.mk
      SetUeSliceAssociationResponse.Ack (fun _ => rfl) s request.E2NodeId _
      (validateAssociate_error L request)
    have h := h2 (validateAssociate_error_of L request (Or.inr (Or.inl ⟨hne, e, he⟩)))
    exact ⟨h.1, h.2.1⟩

/-- C16 (witness): the sample association with uplink slice `"3"` yields the
uplink slice id 3; with uplink slice `"oops"` it is refused. -/
theorem SetUeSliceAssociation_slice_association_witness :
    (∃ assoc : SliceAssociate,
      (SetUeSliceAssociation sampleLib sampleServer sampleAssociateUl).encoderCalls =
        [{ cmdType := .UE_ASSOCIATE, sliceConfig := none, sliceAssoc := some assoc }] ∧
      1 = denotedInteger sampleAssociateUl.DlSliceId ∧
      assoc.DownLinkSliceId = some { Value := 1 } ∧
      (assoc.UplinkSliceId = none ↔ sampleAssociateUl.UlSliceId = "") ∧
      (∀ ul, sampleAssociateUl.UlSliceId ≠ "" → Atoi sampleAssociateUl.UlSliceId = .ok ul →
        ul = denotedInteger sampleAssociateUl.UlSliceId ∧
          assoc.UplinkSliceId = some { Value := ul }) ∧
      assoc.BearerId = [.DrbId (.FourGdrbId { Value := 1, Qci := some { Value := 1 } })]) ∧
    Atoi sampleAssociateUl.UlSliceId = .ok 3 ∧
    ((SetUeSliceAssociation sampleLib sampleServer
        { sampleAssociate with UlSliceId := "oops" }).nacked
        SetUeSliceAssociationResponse.Ack ∧
      (SetUeSliceAssociation sampleLib sampleServer
        { sampleAssociate with UlSliceId := "oops" }).encoderCalls = []) :=
  ⟨(SetUeSliceAssociation_slice_association sampleLib sampleServer).1 sampleAssociateUl 1
      (by decide) (Or.inr ⟨3, by decide⟩)
      ⟨{ UeId := "42", Type_ := .DU_UE_F1_AP_ID }, by decide, rfl⟩
      (by
        intro u hu hdu
        simp only [sampleAssociateUl, sampleAssociate, List.mem_cons, List.mem_singleton,
          List.not_mem_nil, or_false] at hu
        rcases hu with rfl | rfl | rfl | rfl
        · cases hdu
        · exact ⟨7, by decide⟩
        · exact ⟨42, by decide⟩
        · cases hdu),
    by decide,
    (SetUeSliceAssociation_slice_association sampleLib sampleServer).2
      { sampleAssociate with UlSliceId := "oops" }
      { Func := "Atoi", Num := "oops", Err := .ErrSyntax } (by decide) (by decide)⟩

/-! ## `CreateSlice` and `UpdateSlice` -/

theorem send_observed (chs : Registry) (node : String) (m1 m2 : Option ControlMessage) :
    (send chs node m1 = .blockedOnNilChan ∧ send chs node m2 = .blockedOnNilChan) ∨
    (send chs node m1 = .blockedOnFullChan ∧ send chs node m2 = .blockedOnFullChan) ∨
    ((∃ c1, send chs node m1 = .sent c1) ∧ ∃ c2, send chs node m2 = .sent c2) := by
  unfold send
  rcases chs.get node with _ | ch
  · exact Or.inl ⟨rfl, rfl⟩
  · by_cases h : ch.room = 0
    · refine Or.inr (Or.inl ?_)
      simp only [h, if_true, and_self]
    · refine Or.inr (Or.inr ?_)
      simp only [h, if_false]
      exact ⟨⟨_, rfl⟩, ⟨_, rfl⟩⟩

theorem CreateControlRequest_header_error (L : Lib) (cmdType : E2SmRsmCommand)
    (cfg : Option SliceConfig) (assoc : Option SliceAssociate) (err : Error)
    (h : (CreateControlHandler L cmdType).2 = some err) :
    CreateControlRequest L cmdType cfg assoc = (none, some err) := by
  unfold CreateControlRequest
  rcases hh : CreateControlHandler L cmdType with ⟨hdr, e⟩
  rw [hh] at h
  simp only at h
  subst h
  rfl

theorem dispatch_observed_congr {ρ σ : Type} (L : Lib) (mk1 : Option Ack → ρ)
    (mk2 : Option Ack → σ) (ack1 : ρ → Option Ack) (ack2 : σ → Option Ack)
    (h1 : ∀ a, ack1 (mk1 a) = a) (h2 : ∀ a, ack2 (mk2 a) = a) (s : Server) (node : String)
    (c1 c2 : EncoderCall)
    (hh : (CreateControlHandler L c1.cmdType).2 = (CreateControlHandler L c2.cmdType).2) :
    (dispatch L mk1 s node (.ok c1)).observed ack1 =
      (dispatch L mk2 s node (.ok c2)).observed ack2 := by
  rcases he : (CreateControlHandler L c2.cmdType).2 with _ | err
  · rw [he] at hh
    unfold dispatch
    simp only [CreateControlRequest_header_ok L _ _ _ hh,
      CreateControlRequest_header_ok L _ _ _ he]
    rcases send_observed s.ctrlReqChs node
        (some { Header := (CreateControlHandler L c1.cmdType).1,
                Payload := (CreateControlPayload L c1.cmdType c1.sliceConfig c1.sliceAssoc).1 })
        (some { Header := (CreateControlHandler L c2.cmdType).1,
                Payload := (CreateControlPayload L c2.cmdType c2.sliceConfig c2.sliceAssoc).1 })
      with ⟨e1, e2⟩ | ⟨e1, e2⟩ | ⟨⟨x1, e1⟩, ⟨x2, e2⟩⟩
    · simp only [e1, e2, Exec.observed]
    · simp only [e1, e2, Exec.observed]
    · simp only [e1, e2, Exec.observed, Option.map, h1, h2]
  · rw [he] at hh
    unfold dispatch
    simp only [CreateControlRequest_header_error L _ _ _ err hh,
      CreateControlRequest_header_error L _ _ _ err he, Exec.observed, Option.map, h1, h2]

/-- C17: for a `CreateSlice` and an `UpdateSlice` request with equal `SliceId`,
`Weight`, `SchedulerType`, `SliceType` and `E2NodeId` on the same server, the
two handlers make their encoder calls with equal slice configurations and
slice associations, the command type being `SLICE_CREATE` in the one and
`SLICE_UPDATE` in the other; and, the control headers of the two commands
being built with the same outcome, the callers observe the same
acknowledgment and error, or the same blocking. -/
theorem CreateSlice_UpdateSlice_same_transformation (L : Lib) (s : Server)
    (rc : CreateSliceRequest) (ru : UpdateSliceRequest)
    (hid : rc.SliceId = ru.SliceId) (hw : rc.Weight = ru.Weight)
    (hst : rc.SchedulerType = ru.SchedulerType) (hty : rc.SliceType = ru.SliceType)
    (hnode : rc.E2NodeId = ru.E2NodeId)
    (hh : (CreateControlHandler L .SLICE_CREATE).2 = (CreateControlHandler L .SLICE_UPDATE).2) :
    (CreateSlice L s rc).observed CreateSliceResponse.Ack =
      (UpdateSlice L s ru).observed UpdateSliceResponse.Ack ∧
    (CreateSlice L s rc).encoderCalls.map (fun call => (call.sliceConfig, call.sliceAssoc)) =
      (UpdateSlice L s ru).encoderCalls.map (fun call => (call.sliceConfig, call.sliceAssoc)) ∧
    (∀ call ∈ (CreateSlice L s rc).encoderCalls, call.cmdType = .SLICE_CREATE) ∧
    (∀ call ∈ (UpdateSlice L s ru).encoderCalls, call.cmdType = .SLICE_UPDATE) := by
  rw [CreateSlice_eq_dispatch, UpdateSlice_eq_dispatch, hid, hw, hst, hty, hnode]
  unfold validateSlice
  rcases Atoi ru.SliceId with e | id
  · simp only [dispatch_error, Exec.observed, Option.map, List.map_nil, List.not_mem_nil,
      false_imp_iff, implies_true, and_self]
  · rcases Atoi ru.Weight with e | w
    · simp only [dispatch_error, Exec.observed, Option.map, List.map_nil, List.not_mem_nil,
        false_imp_iff, implies_true, and_self]
    · simp only [dispatch_encoderCalls, List.map_cons, List.map_nil, List.mem_singleton,
        forall_eq, and_self, and_true]
      exact dispatch_observed_congr L _ _ _ _ (fun _ => rfl) (fun _ => rfl) s _ _ _ hh

/-- C17 (witness): the sample creation and the update with the same fields. -/
theorem CreateSlice_UpdateSlice_same_transformation_witness :
    (CreateSlice sampleLib sampleServer sampleCreate).observed CreateSliceResponse.Ack =
      (UpdateSlice sampleLib sampleServer sampleUpdateSame).observed UpdateSliceResponse.Ack ∧
    (CreateSlice sampleLib sampleServer sampleCreate).encoderCalls.map
        (fun call => (call.sliceConfig, call.sliceAssoc)) =
      (UpdateSlice sampleLib sampleServer sampleUpdateSame).encoderCalls.map
        (fun call => (call.sliceConfig, call.sliceAssoc)) ∧
    (∀ call ∈ (CreateSlice sampleLib sampleServer sampleCreate).encoderCalls,
      call.cmdType = .SLICE_CREATE) ∧
    (∀ call ∈ (UpdateSlice sampleLib sampleServer sampleUpdateSame).encoderCalls,
      call.cmdType = .SLICE_UPDATE) :=
  CreateSlice_UpdateSlice_same_transformation sampleLib sampleServer sampleCreate
    sampleUpdateSame rfl rfl rfl rfl rfl (by decide)

/-! ## UE identifiers that do not parse -/

theorem scanUeId_map_other (L : Lib) (f : UeId → String) (ueIds : List UeId) (r : Int)
    (b : Bool) :
    scanUeId L
        (ueIds.map fun u =>
          if u.Type_ = Rsmapi.UeIdType.DU_UE_F1_AP_ID then u else { u with UeId := f u })
        r b =
      scanUeId L ueIds r b := by
  induction ueIds generalizing r b with
  | nil => rfl
  | cons u rest ih =>
    by_cases hu : u.Type_ = Rsmapi.UeIdType.DU_UE_F1_AP_ID
    · simp only [List.map_cons, if_pos hu, scanUeId]
      split
      · rfl
      · exact ih _ _
    · simp only [List.map_cons, if_neg hu, scanUeId]
      exact ih _ _

/-- C18: when the slice id texts of a `SetUeSliceAssociation` request parse,
the handler returns a negative acknowledgment whose cause is
`"failed to convert ue id to int - "` followed by some text exactly when some
entry of the kind `DU_UE_F1_AP_ID`, wherever it stands in the list, has an id
that `strconv.Atoi` rejects; and replacing the ids of the entries of other
kinds by any texts leaves the whole run unchanged. -/
theorem SetUeSliceAssociation_ue_id_failure_iff (L : Lib) (s : Server)
    (request : SetUeSliceAssociationRequest) (dl : Int)
    (hdl : Atoi request.DlSliceId = .ok dl)
    (hul : request.UlSliceId = "" ∨ ∃ ul, Atoi request.UlSliceId = .ok ul) :
    ((∃ t, (SetUeSliceAssociation L s request).returnedAck SetUeSliceAssociationResponse.Ack
          { Success := false, Cause := "failed to convert ue id to int - " ++ t }) ↔
      ∃ u ∈ request.UeId, u.Type_ = Rsmapi.UeIdType.DU_UE_F1_AP_ID ∧
        ∃ e, Atoi u.UeId = .error e) ∧
    (∀ f : UeId → String,
      SetUeSliceAssociation L s
          { request with
            UeId := request.UeId.map fun u =>
              if u.Type_ = Rsmapi.UeIdType.DU_UE_F1_AP_ID then u else { u with UeId := f u } } =
        SetUeSliceAssociation L s request) := by
  obtain ⟨⟨hasUl, ul⟩, hp⟩ := parseUlSliceId_ok request.UlSliceId hul
  constructor
  · constructor
    · rintro ⟨t, resp, hst, hack⟩
      rw [SetUeSliceAssociation_eq_dispatch] at hst
      rcases hscan : scanUeId L request.UeId 0 false with resp0 | ⟨r1, b1⟩
      · obtain ⟨u, hu, hdu, e, he, _⟩ := scanUeId_error_form L _ _ _ _ hscan
        exact ⟨u, hu, hdu, e, he⟩
      · exfalso
        cases b1
        · have hv : validateAssociate L request =
              .error { Ack := some { Success := false, Cause := "need du-ue-f1ap-id" } } := by
            simp [validateAssociate, hdl, hp, hscan]
          rw [hv, dispatch_error] at hst
          injection hst with h1 _
          injection h1 with h1
          subst h1
          injection hack with hack
          injection hack with _ hc
          exact need_ne_convert_ue_id t hc
        · rw [validateAssociate_ok L request dl ul r1 hasUl hdl hp hscan] at hst
          unfold dispatch at hst
          simp only at hst
          split at hst
          · injection hst with h1 _
            injection h1 with h1
            subst h1
            injection hack with hack
            injection hack with _ hc
            exact create_message_ne_convert_ue_id _ t hc
          · split at hst
            · cases hst
            · cases hst
            · injection hst with h1 _
              injection h1 with h1
              subst h1
              injection hack with hack
              injection hack with hs _
              cases hs
    · intro hbad
      obtain ⟨resp, hr⟩ := scanUeId_error_of L request.UeId 0 false hbad
      obtain ⟨u, _, _, e, _, hform⟩ := scanUeId_error_form L _ _ _ _ hr
      have hv : validateAssociate L request = .error resp := by
        simp [validateAssociate, hdl, hp, hr]
      rw [SetUeSliceAssociation_eq_dispatch, hv, dispatch_error]
      exact ⟨(Error.numError e).text L, resp, rfl, by rw [hform]⟩
  · intro f
    simp only [SetUeSliceAssociation, scanUeId_map_other]

/-- C18 (witness): the list whose first `DU_UE_F1_AP_ID` entry is `"seven"` and
whose second is `"42"` is refused for the UE id. -/
theorem SetUeSliceAssociation_ue_id_failure_iff_witness :
    (SetUeSliceAssociation sampleLib sampleServer sampleAssociateBad).status =
      .returned (some { Ack := some {
        Success := false,
        Cause := "failed to convert ue id to int - strconv.Atoi: parsing \"seven\": invalid syntax" } })
        none ∧
    ∃ t, (SetUeSliceAssociation sampleLib sampleServer sampleAssociateBad).returnedAck
      SetUeSliceAssociationResponse.Ack
      { Success := false, Cause := "failed to convert ue id to int - " ++ t } :=
  ⟨by decide,
    (SetUeSliceAssociation_ue_id_failure_iff sampleLib sampleServer sampleAssociateBad 1
      (by decide) (Or.inl rfl)).1.mpr
      ⟨{ UeId := "seven", Type_ := .DU_UE_F1_AP_ID }, by decide, rfl,
        { Func := "Atoi", Num := "seven", Err := .ErrSyntax }, by decide⟩⟩

end OnosRsm
